import Mathlib

/-!
Verification of the lensfun calibration-interpolation core
(`src/libs/lensfun/lens.cpp`, `src/libs/lensfun/auxfun.cpp`).

Machine floats of the source are modelled by exact rationals `ℚ`; the float
sentinels `FLT_MAX`, `float(INT_MAX)`, `float(INT_MIN)` are modelled by the
exact rational values of those floats.  The vignetting interpolator's inverse
distance weighting uses the non-rational weight `|1 / D^3.5|`; it is modelled
by an explicit weight-function parameter `w` applied to the squared distance
(the source computes `D = sqrt S` and compares `D` only against nonnegative
constants, so every comparison is tracked on the square: `D < c ↔ S < c²`).
-/

set_option linter.unusedVariables false

namespace Lensfun

/-- Distortion model enum `lfDistortionModel` from `lensfun.h`. -/
inductive lfDistortionModel where
  | NONE | POLY3 | POLY5 | PTLENS | ACM
deriving DecidableEq

/-- TCA model enum `lfTCAModel` from `lensfun.h`. -/
inductive lfTCAModel where
  | NONE | LINEAR | POLY3 | ACM
deriving DecidableEq

/-- Vignetting model enum `lfVignettingModel` from `lensfun.h`. -/
inductive lfVignettingModel where
  | NONE | PA | ACM
deriving DecidableEq

/-- Crop mode enum `lfCropMode` from `lensfun.h`. -/
inductive lfCropMode where
  | NO_CROP | CROP_RECTANGLE | CROP_CIRCLE
deriving DecidableEq

/-- `struct lfLensCalibDistortion`: model, nominal focal, real focal,
whether the real focal was measured, and 5 coefficient slots. -/
structure lfLensCalibDistortion where
  Model : lfDistortionModel
  Focal : ℚ
  RealFocal : ℚ
  RealFocalMeasured : Bool
  Terms : List ℚ
deriving DecidableEq

/-- `struct lfLensCalibTCA`: model, focal, and 12 coefficient slots. -/
structure lfLensCalibTCA where
  Model : lfTCAModel
  Focal : ℚ
  Terms : List ℚ
deriving DecidableEq

/-- `struct lfLensCalibVignetting`: model, focal, aperture, distance,
and 3 coefficient slots. -/
structure lfLensCalibVignetting where
  Model : lfVignettingModel
  Focal : ℚ
  Aperture : ℚ
  Distance : ℚ
  Terms : List ℚ
deriving DecidableEq

/-- `struct lfLensCalibCrop`: focal, crop mode, and 4 crop coordinates. -/
structure lfLensCalibCrop where
  Focal : ℚ
  CropMode : lfCropMode
  Crop : List ℚ
deriving DecidableEq

/-- `struct lfLensCalibFov`: focal and field of view in degrees. -/
structure lfLensCalibFov where
  Focal : ℚ
  FieldOfView : ℚ
deriving DecidableEq

/-- The exact rational value of the IEEE-754 single precision `FLT_MAX`,
that is `(2^24 - 1) * 2^104`, used by the source as the "absent value"
sentinel. -/
def FLT_MAX : ℚ := 340282346638528859811704183484516925440

/-- The `square` helper of the source: `x * x`. -/
def square (x : ℚ) : ℚ := x * x

/-- `pow (x, n)` for the natural exponents the source passes to the C
`pow` (unfolded multiplication so that closed instances evaluate in the
kernel). -/
def powQ (x : ℚ) : ℕ → ℚ
  | 0 => 1
  | n + 1 => x * powQ x n

/-- `fabs`. -/
def fabsQ (x : ℚ) : ℚ := if x < 0 then -x else x

/-- `std::min` (returns the first argument on ties). -/
def minQ (a b : ℚ) : ℚ := if b < a then b else a

/-- Float equality test `a == b`, evaluated on the canonical
numerator/denominator representation (identical to rational equality,
see `beqQ_iff`; spelled this way so that closed instances evaluate). -/
def beqQ (a b : ℚ) : Bool := a.num == b.num && a.den == b.den

/-- `_lf_interpolate` from `auxfun.cpp`: Hermite cubic through `y2, y3`
with one-sided tangents collapsing to `y3 - y2` when the outer
neighbor carries the `FLT_MAX` sentinel. -/
def _lf_interpolate (y1 y2 y3 y4 t : ℚ) : ℚ :=
  let t2 := t * t
  let t3 := t2 * t
  let tg2 := if beqQ y1 FLT_MAX then y3 - y2 else (y3 - y1) * (1 / 2)
  let tg3 := if beqQ y4 FLT_MAX then y3 - y2 else (y4 - y2) * (1 / 2)
  (2 * t3 - 3 * t2 + 1) * y2 +
    (t3 - 2 * t2 + t) * tg2 +
    (-2 * t3 + 3 * t2) * y3 +
    (t3 - t2) * tg3

/-- The four neighbor slots of the spline selection in `lens.cpp`
(`spline` / `spline_dist` local arrays): slots 0,1 hold the records with
negative `focal - record.Focal`, slots 2,3 the records with positive one. -/
structure Spline (α : Type) where
  d0 : ℚ
  d1 : ℚ
  d2 : ℚ
  d3 : ℚ
  s0 : Option α
  s1 : Option α
  s2 : Option α
  s3 : Option α

/-- Initial spline state: distances `{-FLT_MAX, -FLT_MAX, FLT_MAX, FLT_MAX}`
and empty slots (the `memset` of the `spline` array). -/
def initSpline {α : Type} : Spline α :=
  ⟨-FLT_MAX, -FLT_MAX, FLT_MAX, FLT_MAX, none, none, none, none⟩

/-- `__insert_spline` from `lens.cpp`: keep the two closest records on each
side of the query focal (the int return code of the source is unused by its
callers and dropped here). -/
def __insert_spline {α : Type} (sp : Spline α) (dist : ℚ) (val : α) : Spline α :=
  if dist < 0 then
    if dist > sp.d1 then
      { sp with d0 := sp.d1, d1 := dist, s0 := sp.s1, s1 := some val }
    else if dist > sp.d0 then
      { sp with d0 := dist, s0 := some val }
    else sp
  else
    if dist < sp.d2 then
      { sp with d3 := sp.d2, d2 := dist, s3 := sp.s2, s2 := some val }
    else if dist < sp.d3 then
      { sp with d3 := dist, s3 := some val }
    else sp

/-- The `(type, model)` argument pair of `__parameter_scales`
(`LF_MODIFY_DISTORTION` / `LF_MODIFY_TCA` / `LF_MODIFY_VIGNETTING`
paired with the respective model enum). -/
inductive ScaleSel where
  | distortion (m : lfDistortionModel)
  | tca (m : lfTCAModel)
  | vignetting (m : lfVignettingModel)

/-- `__parameter_scales` from `lens.cpp`: converts, in place, an array of
focal lengths into the per-term parameter-axis scale factors for the given
correction type, model and term index. -/
def __parameter_scales (sel : ScaleSel) (index : ℕ) (values : List ℚ) : List ℚ :=
  match sel with
  | .distortion m =>
    match m with
    | .NONE => values
    | .POLY3 => values
    | .POLY5 => values
    | .PTLENS => values
    | .ACM =>
      let exponent : ℕ := if index < 3 then 2 * (index + 1) else 1
      values.map (fun v => v / powQ v exponent)
  | .tca m =>
    match m with
    | .NONE => values
    | .LINEAR => if index < 2 then values.map (fun _ => (1 : ℚ)) else values
    | .POLY3 => if index < 2 then values.map (fun _ => (1 : ℚ)) else values
    | .ACM =>
      let exponent : ℕ := if 1 < index ∧ index < 8 then index / 2 * 2 else 1
      values.map (fun v => v / powQ v exponent)
  | .vignetting m =>
    match m with
    | .NONE => values
    | .PA => values.map (fun _ => (1 : ℚ))
    | .ACM =>
      let exponent : ℕ := 2 * (index + 1)
      values.map (fun v => 1 / powQ v exponent)

/-- The `lfLens` fields relevant to the calibration core.  `Model` is the
multilingual model-name buffer (`none` models the null pointer); `Mounts`
null and empty coincide behaviorally and are both `[]`.  The source field
`AspectRatio` is named `Aspect` here. -/
structure lfLens where
  Model : Option String
  MinFocal : ℚ
  MaxFocal : ℚ
  MinAperture : ℚ
  MaxAperture : ℚ
  Mounts : List String
  CropFactor : ℚ
  Aspect : ℚ
  CalibDistortion : List lfLensCalibDistortion
  CalibTCA : List lfLensCalibTCA
  CalibVignetting : List lfLensCalibVignetting
  CalibCrop : List lfLensCalibCrop
  CalibFov : List lfLensCalibFov
deriving DecidableEq

/-- `_lf_addobj` from `auxfun.cpp`: scan the list for the first entry the
comparator deems equal to the new value (`cmpf (val, existing)`); replace it
in place, otherwise append the value at the end. -/
def _lf_addobj {α : Type} (cmpf : α → α → Bool) : List α → α → List α
  | [], val => [val]
  | x :: xs, val =>
    if cmpf val x then val :: xs else x :: _lf_addobj cmpf xs val

/-- `_lf_delobj` from `auxfun.cpp`: delete the entry at `idx` (shifting the
tail down by one) and report success; out-of-range indices fail and leave
the list untouched. -/
def _lf_delobj {α : Type} (l : List α) (idx : ℤ) : Bool × List α :=
  if idx < 0 ∨ (l.length : ℤ) ≤ idx then (false, l)
  else (true, l.take idx.toNat ++ l.drop (idx.toNat + 1))

/-- `cmp_distortion` from `lens.cpp`: distortion records match on focal. -/
def cmp_distortion (d1 d2 : lfLensCalibDistortion) : Bool :=
  d1.Focal == d2.Focal

/-- `cmp_tca` from `lens.cpp`: TCA records match on focal. -/
def cmp_tca (t1 t2 : lfLensCalibTCA) : Bool :=
  t1.Focal == t2.Focal

/-- `cmp_vignetting` from `lens.cpp`: vignetting records match on the
focal, distance, aperture triple. -/
def cmp_vignetting (v1 v2 : lfLensCalibVignetting) : Bool :=
  v1.Focal == v2.Focal && v1.Distance == v2.Distance && v1.Aperture == v2.Aperture

/-- `cmp_lenscrop` from `lens.cpp`: crop records match on focal. -/
def cmp_lenscrop (d1 d2 : lfLensCalibCrop) : Bool :=
  d1.Focal == d2.Focal

/-- `cmp_lensfov` from `lens.cpp`: FoV records match on focal. -/
def cmp_lensfov (d1 d2 : lfLensCalibFov) : Bool :=
  d1.Focal == d2.Focal

/-- `lfLens::AddCalibDistortion`. -/
def AddCalibDistortion (l : lfLens) (dc : lfLensCalibDistortion) : lfLens :=
  { l with CalibDistortion := _lf_addobj cmp_distortion l.CalibDistortion dc }

/-- `lfLens::AddCalibTCA`. -/
def AddCalibTCA (l : lfLens) (tcac : lfLensCalibTCA) : lfLens :=
  { l with CalibTCA := _lf_addobj cmp_tca l.CalibTCA tcac }

/-- `lfLens::AddCalibVignetting`. -/
def AddCalibVignetting (l : lfLens) (vc : lfLensCalibVignetting) : lfLens :=
  { l with CalibVignetting := _lf_addobj cmp_vignetting l.CalibVignetting vc }

/-- `lfLens::AddCalibCrop`. -/
def AddCalibCrop (l : lfLens) (lcc : lfLensCalibCrop) : lfLens :=
  { l with CalibCrop := _lf_addobj cmp_lenscrop l.CalibCrop lcc }

/-- `lfLens::AddCalibFov`. -/
def AddCalibFov (l : lfLens) (lcf : lfLensCalibFov) : lfLens :=
  { l with CalibFov := _lf_addobj cmp_lensfov l.CalibFov lcf }

/-- `lfLens::RemoveCalibDistortion`. -/
def RemoveCalibDistortion (l : lfLens) (idx : ℤ) : Bool × lfLens :=
  let r := _lf_delobj l.CalibDistortion idx
  (r.1, { l with CalibDistortion := r.2 })

/-- `lfLens::RemoveCalibTCA`. -/
def RemoveCalibTCA (l : lfLens) (idx : ℤ) : Bool × lfLens :=
  let r := _lf_delobj l.CalibTCA idx
  (r.1, { l with CalibTCA := r.2 })

/-- `lfLens::RemoveCalibVignetting`. -/
def RemoveCalibVignetting (l : lfLens) (idx : ℤ) : Bool × lfLens :=
  let r := _lf_delobj l.CalibVignetting idx
  (r.1, { l with CalibVignetting := r.2 })

/-- `lfLens::RemoveCalibCrop`. -/
def RemoveCalibCrop (l : lfLens) (idx : ℤ) : Bool × lfLens :=
  let r := _lf_delobj l.CalibCrop idx
  (r.1, { l with CalibCrop := r.2 })

/-- `lfLens::RemoveCalibFov`. -/
def RemoveCalibFov (l : lfLens) (idx : ℤ) : Bool × lfLens :=
  let r := _lf_delobj l.CalibFov idx
  (r.1, { l with CalibFov := r.2 })

/-- The exact value of `float (INT_MAX)` (rounds up to `2^31`), the
"nothing found" sentinel of `GuessParameters`. -/
def INT_MAX_F : ℚ := 2147483648

/-- The exact value of `float (INT_MIN)` (`-2^31`). -/
def INT_MIN_F : ℚ := -2147483648

/-- Outcome of `_lf_parse_lens_name` together with its surrounding guards
(`strstr` checks and the extender-magnification regex) on the lens model
name: for each of min focal, max focal, min aperture either a parsed value
or `none` when the regex group did not participate or no regex matched.
The source computes this from `Model` alone with a POSIX regex engine that
lives outside the numeric core, so it enters the embedding as a parameter;
`GuessParameters` never changes `Model`, hence the parameter is the same
for repeated calls on the same lens. -/
structure NameParse where
  minf : Option ℚ
  maxf : Option ℚ
  mina : Option ℚ

/-- The running-minimum loop `if (f < minf) minf = f;` over a list. -/
def foldMinQ (init : ℚ) (fs : List ℚ) : ℚ :=
  fs.foldl (fun m f => if f < m then f else m) init

/-- The running-maximum loop `if (f > maxf) maxf = f;` over a list. -/
def foldMaxQ (init : ℚ) (fs : List ℚ) : ℚ :=
  fs.foldl (fun m f => if f > m then f else m) init

/-- The sequence of calibration focals scanned by `GuessParameters`
(distortion, TCA, vignetting, crop, FoV lists in the source's order). -/
def focalsOf (l : lfLens) : List ℚ :=
  l.CalibDistortion.map (·.Focal) ++ l.CalibTCA.map (·.Focal) ++
  l.CalibVignetting.map (·.Focal) ++ l.CalibCrop.map (·.Focal) ++
  l.CalibFov.map (·.Focal)

/-- The calibration apertures scanned by `GuessParameters` (vignetting). -/
def aperturesOf (l : lfLens) : List ℚ :=
  l.CalibVignetting.map (·.Aperture)

/-- The conditional assignment pattern of `GuessParameters`:
`if (cand != sentinel && !field) field = cand;`. -/
def fillField (cand sent x : ℚ) : ℚ :=
  if beqQ cand sent = false ∧ x = 0 then cand else x

/-- `lfLens::GuessParameters` from `lens.cpp`, with the model-name regex
outcome supplied as `p` (see `NameParse`).  The name parse and the
calibration scans run only when an aperture or focal field is missing
(`!MinAperture || !MinFocal`; when they are skipped the candidates keep
their `float (INT_MAX)` / `float (INT_MIN)` sentinels and the fills below
are vacuous, exactly as in the source); the candidates then fill only the
fields that are zero, and finally `MaxFocal` defaults to `MinFocal`. -/
def GuessParameters (p : NameParse) (l : lfLens) : lfLens :=
  let scanGuard := l.MinAperture = 0 ∨ l.MinFocal = 0
  let minf := if scanGuard then
    foldMinQ (if l.Model.isSome then p.minf.getD INT_MAX_F else INT_MAX_F) (focalsOf l)
    else INT_MAX_F
  let maxf := if scanGuard then
    foldMaxQ (if l.Model.isSome then p.maxf.getD INT_MIN_F else INT_MIN_F) (focalsOf l)
    else INT_MIN_F
  let mina := if scanGuard then
    foldMinQ (if l.Model.isSome then p.mina.getD INT_MAX_F else INT_MAX_F) (aperturesOf l)
    else INT_MAX_F
  let maxa := if scanGuard then foldMaxQ INT_MIN_F (aperturesOf l) else INT_MIN_F
  let MinFocal' := fillField minf INT_MAX_F l.MinFocal
  let MaxFocal' := fillField maxf INT_MIN_F l.MaxFocal
  let MinAperture' := fillField mina INT_MAX_F l.MinAperture
  let MaxAperture' := fillField maxa INT_MIN_F l.MaxAperture
  let MaxFocal'' := if MaxFocal' = 0 then MinFocal' else MaxFocal'
  { l with
    MinFocal := MinFocal', MaxFocal := MaxFocal'',
    MinAperture := MinAperture', MaxAperture := MaxAperture' }

/-- `lfLens::Check` from `lens.cpp`: run `GuessParameters`, then validate
presence of model and mounts, positive crop factor, ordered focal range,
ordered aperture range (when a max aperture is present) and aspect ratio
at least 1.  The source mutates the lens via `GuessParameters`; the
validation verdict on the guessed lens is returned here. -/
def Check (p : NameParse) (l : lfLens) : Bool :=
  let l := GuessParameters p l
  !(l.Model = none ∨ l.Mounts = [] ∨ l.CropFactor ≤ 0 ∨
    l.MinFocal > l.MaxFocal ∨ (l.MaxAperture ≠ 0 ∧ l.MinAperture > l.MaxAperture) ∨
    l.Aspect < 1 : Bool)

/-- The four calibration-scan candidates of `GuessParameters` (min/max
focal from all five calibration lists, min aperture from the vignetting
list and its parsed fallbacks, max aperture from the vignetting list),
before the `!MinAperture || !MinFocal` guard is applied.  Split out of
`GuessParameters` (see `GuessParameters_via`): they depend only on the
model name and the calibration lists, none of which the call modifies. -/
def gpCands (p : NameParse) (l : lfLens) : ℚ × ℚ × ℚ × ℚ :=
  (foldMinQ (if l.Model.isSome then p.minf.getD INT_MAX_F else INT_MAX_F) (focalsOf l),
   foldMaxQ (if l.Model.isSome then p.maxf.getD INT_MIN_F else INT_MIN_F) (focalsOf l),
   foldMinQ (if l.Model.isSome then p.mina.getD INT_MAX_F else INT_MAX_F) (aperturesOf l),
   foldMaxQ INT_MIN_F (aperturesOf l))

/-- The field-filling tail of `GuessParameters` as a function of the four
candidates and the four focal/aperture fields: guard the candidates with
`!MinAperture || !MinFocal`, fill each empty field, then default
`MaxFocal` to `MinFocal` (see `GuessParameters_via`). -/
def gpFields (m x a b MinF MaxF MinA MaxA : ℚ) : ℚ × ℚ × ℚ × ℚ :=
  let minf := if MinA = 0 ∨ MinF = 0 then m else INT_MAX_F
  let maxf := if MinA = 0 ∨ MinF = 0 then x else INT_MIN_F
  let mina := if MinA = 0 ∨ MinF = 0 then a else INT_MAX_F
  let maxa := if MinA = 0 ∨ MinF = 0 then b else INT_MIN_F
  let F := fillField minf INT_MAX_F MinF
  let X := fillField maxf INT_MIN_F MaxF
  let A := fillField mina INT_MAX_F MinA
  let B := fillField maxa INT_MIN_F MaxA
  (F, if X = 0 then F else X, A, B)

/-- The shared record-selection loop of `lfLens::InterpolateDistortion`,
`InterpolateTCA` and `InterpolateCrop`, abstracted over the record type,
its model projection `gm` with "no model" value `nm`, and its focal
projection `gf`.  Records with model `nm` are skipped; the model family is
latched from the first remaining record and records of other families are
skipped; an exact focal match returns that record immediately (`Sum.inl`);
otherwise the record is offered to the four neighbor slots. -/
def splineLoop {α μ : Type} [DecidableEq μ] (gm : α → μ) (nm : μ) (gf : α → ℚ)
    (focal : ℚ) : List α → μ → Spline α → Sum α (μ × Spline α)
  | [], m, sp => .inr (m, sp)
  | c :: rest, m, sp =>
    if gm c = nm then splineLoop gm nm gf focal rest m sp
    else if m ≠ nm ∧ m ≠ gm c then splineLoop gm nm gf focal rest m sp
    else
      let m := if m = nm then gm c else m
      let df := focal - gf c
      if df = 0 then .inl c
      else splineLoop gm nm gf focal rest m (__insert_spline sp df c)

/-- Helper for reading `values [i]` out of a scale array. -/
def valAt (values : List ℚ) (i : ℕ) : ℚ := values.getD i 0

/-- Helper for reading `Terms [i]` (or `Crop [i]`) out of a record. -/
def termAt (ts : List ℚ) (i : ℕ) : ℚ := ts.getD i 0

/-- One interpolated, parameter-axis-rescaled term: build the
`values[5]` array of the four neighbor focals (the placeholder of an
absent outer neighbor is never read) and the query focal, push it through
`__parameter_scales`, Hermite-interpolate the rescaled terms and divide by
the query-focal factor. -/
def scaledTerm {α : Type} (sel : ScaleSel) (i : ℕ) (gf : α → ℚ) (gt : α → List ℚ)
    (s0 : Option α) (s1 s2 : α) (s3 : Option α) (focal t : ℚ) : ℚ :=
  let values := __parameter_scales sel i
    [(s0.map gf).getD 0, gf s1, gf s2, (s3.map gf).getD 0, focal]
  _lf_interpolate
    (match s0 with
     | some s => termAt (gt s) i * valAt values 0
     | none => FLT_MAX)
    (termAt (gt s1) i * valAt values 1)
    (termAt (gt s2) i * valAt values 2)
    (match s3 with
     | some s => termAt (gt s) i * valAt values 3
     | none => FLT_MAX)
    t / valAt values 4

/-- `lfLens::InterpolateDistortion` from `lens.cpp`.  The C out-parameter
`res` is threaded explicitly: the result pairs the returned boolean with
the final contents of `res`. -/
def InterpolateDistortion (l : lfLens) (focal : ℚ) (res : lfLensCalibDistortion) :
    Bool × lfLensCalibDistortion :=
  if l.CalibDistortion = [] then (false, res)
  else
    match splineLoop (·.Model) .NONE (·.Focal) focal l.CalibDistortion .NONE initSpline with
    | .inl c => (true, c)
    | .inr (dm, sp) =>
      match sp.s1, sp.s2 with
      | none, none => (false, res)
      | some s, none => (true, s)
      | none, some s => (true, s)
      | some s1, some s2 =>
        let t := (focal - s1.Focal) / (s2.Focal - s1.Focal)
        let rf := _lf_interpolate ((sp.s0.map (·.RealFocal)).getD FLT_MAX)
          s1.RealFocal s2.RealFocal ((sp.s3.map (·.RealFocal)).getD FLT_MAX) t
        (true,
          { res with
            Model := dm, Focal := focal, RealFocal := rf,
            Terms := (List.range 5).map (fun i =>
              scaledTerm (.distortion dm) i (·.Focal) (·.Terms) sp.s0 s1 s2 sp.s3 focal t) })

/-- `lfLens::InterpolateTCA` from `lens.cpp`, out-parameter threaded as in
`InterpolateDistortion`. -/
def InterpolateTCA (l : lfLens) (focal : ℚ) (res : lfLensCalibTCA) :
    Bool × lfLensCalibTCA :=
  if l.CalibTCA = [] then (false, res)
  else
    match splineLoop (·.Model) .NONE (·.Focal) focal l.CalibTCA .NONE initSpline with
    | .inl c => (true, c)
    | .inr (tcam, sp) =>
      match sp.s1, sp.s2 with
      | none, none => (false, res)
      | some s, none => (true, s)
      | none, some s => (true, s)
      | some s1, some s2 =>
        let t := (focal - s1.Focal) / (s2.Focal - s1.Focal)
        (true,
          { res with
            Model := tcam, Focal := focal,
            Terms := (List.range 12).map (fun i =>
              scaledTerm (.tca tcam) i (·.Focal) (·.Terms) sp.s0 s1 s2 sp.s3 focal t) })

/-- `lfLens::InterpolateCrop` from `lens.cpp`: same spline selection keyed
on the crop mode (with `LF_NO_CROP` as the "no model" value); the four
crop coordinates are interpolated without parameter-axis rescaling. -/
def InterpolateCrop (l : lfLens) (focal : ℚ) (res : lfLensCalibCrop) :
    Bool × lfLensCalibCrop :=
  if l.CalibCrop = [] then (false, res)
  else
    match splineLoop (·.CropMode) .NO_CROP (·.Focal) focal l.CalibCrop .NO_CROP initSpline with
    | .inl c => (true, c)
    | .inr (cm, sp) =>
      match sp.s1, sp.s2 with
      | none, none => (false, res)
      | some s, none => (true, s)
      | none, some s => (true, s)
      | some s1, some s2 =>
        let t := (focal - s1.Focal) / (s2.Focal - s1.Focal)
        (true,
          { res with
            CropMode := cm, Focal := focal,
            Crop := (List.range 4).map (fun i =>
              _lf_interpolate
                (match sp.s0 with
                 | some s => termAt s.Crop i
                 | none => FLT_MAX)
                (termAt s1.Crop i) (termAt s2.Crop i)
                (match sp.s3 with
                 | some s => termAt s.Crop i
                 | none => FLT_MAX) t) })

/-- The record-selection loop of `lfLens::InterpolateFov`: skips records
with zero field of view, counts the remaining ones, early-returns on an
exact focal match, otherwise feeds the neighbor slots. -/
def fovLoop (focal : ℚ) : List lfLensCalibFov → ℕ → Spline lfLensCalibFov →
    Sum lfLensCalibFov (ℕ × Spline lfLensCalibFov)
  | [], n, sp => .inr (n, sp)
  | c :: rest, n, sp =>
    if c.FieldOfView = 0 then fovLoop focal rest n sp
    else
      let n := n + 1
      let df := focal - c.Focal
      if df = 0 then .inl c
      else fovLoop focal rest n (__insert_spline sp df c)

/-- `lfLens::InterpolateFov` from `lens.cpp` (deprecated in the source),
out-parameter threaded as in `InterpolateDistortion`. -/
def InterpolateFov (l : lfLens) (focal : ℚ) (res : lfLensCalibFov) :
    Bool × lfLensCalibFov :=
  if l.CalibFov = [] then (false, res)
  else
    match fovLoop focal l.CalibFov 0 initSpline with
    | .inl c => (true, c)
    | .inr (counter, sp) =>
      if counter = 0 then (false, res)
      else
        match sp.s1, sp.s2 with
        | none, none => (false, res)
        | some s, none => (true, s)
        | none, some s => (true, s)
        | some s1, some s2 =>
          let t := (focal - s1.Focal) / (s2.Focal - s1.Focal)
          (true,
            { res with
              Focal := focal,
              FieldOfView := _lf_interpolate
                ((sp.s0.map (·.FieldOfView)).getD FLT_MAX)
                s1.FieldOfView s2.FieldOfView
                ((sp.s3.map (·.FieldOfView)).getD FLT_MAX) t })

/-- Square of `__vignetting_dist` from `lens.cpp`.  The source returns
`sqrt` of this value and only ever compares that square root against
nonnegative constants (`0.0001`, `1`, `FLT_MAX`) or takes minima, so the
square is tracked instead: every comparison `D ⋈ c` of the source appears
below as `S ⋈ c²` (respectively with the untouched `FLT_MAX` sentinel,
which is only reachable alongside `S > 1`). -/
def vignettingDistSq (l : lfLens) (x : lfLensCalibVignetting)
    (focal aperture distance : ℚ) : ℚ :=
  let f1 := focal - l.MinFocal
  let f2 := x.Focal - l.MinFocal
  let df := l.MaxFocal - l.MinFocal
  let f1 := if df ≠ 0 then f1 / df else f1
  let f2 := if df ≠ 0 then f2 / df else f2
  let a1 := 4 / aperture
  let a2 := 4 / x.Aperture
  let d1 := (1 / 10) / distance
  let d2 := (1 / 10) / x.Distance
  square (f2 - f1) + square (a2 - a1) + square (d2 - d1)

/-- The square of the exact-match threshold `0.0001` of
`lfLens::InterpolateVignetting`. -/
def vignExactSq : ℚ := 1 / 100000000

/-- The accumulation loop of `lfLens::InterpolateVignetting`.  `w` is the
inverse-distance weight as a function of the squared distance (the source
computes `fabs (1.0 / pow (sqrt S, 3.5))`; the absolute value is kept
here, the rest is the parameter).  `Sum.inl` is the early verbatim return
of a sample closer than the exact-match threshold; `Sum.inr` carries the
latched model, the accumulating output record, `total_weighting` and the
smallest squared distance seen so far. -/
def vignLoop (w : ℚ → ℚ) (l : lfLens) (focal aperture distance : ℚ) :
    List lfLensCalibVignetting → lfVignettingModel → lfLensCalibVignetting → ℚ → ℚ →
    Sum lfLensCalibVignetting
      (lfVignettingModel × lfLensCalibVignetting × ℚ × ℚ)
  | [], vm, res, tw, sm => .inr (vm, res, tw, sm)
  | c :: rest, vm, res, tw, sm =>
    if vm ≠ .NONE ∧ vm ≠ c.Model then vignLoop w l focal aperture distance rest vm res tw sm
    else
      let vm' := if vm = .NONE then c.Model else vm
      let res := if vm = .NONE then { res with Model := c.Model } else res
      let s := vignettingDistSq l c focal aperture distance
      if s < vignExactSq then .inl c
      else
        let sm := minQ sm s
        let wt := fabsQ (w s)
        let res :=
          { res with
            Terms := (List.range 3).map (fun i =>
              termAt res.Terms i +
                wt * termAt c.Terms i *
                  valAt (__parameter_scales (.vignetting vm') i [c.Focal]) 0) }
        vignLoop w l focal aperture distance rest vm' res (tw + wt) sm

/-- `lfLens::InterpolateVignetting` from `lens.cpp`, out-parameter
threaded; `w` as in `vignLoop`.  Note that with a non-empty calibration
list the output record is overwritten (query coordinates, zeroed terms,
latched model) before any failure can be reported. -/
def InterpolateVignetting (w : ℚ → ℚ) (l : lfLens)
    (focal aperture distance : ℚ) (res : lfLensCalibVignetting) :
    Bool × lfLensCalibVignetting :=
  if l.CalibVignetting = [] then (false, res)
  else
    match vignLoop w l focal aperture distance l.CalibVignetting .NONE
      { res with Focal := focal, Aperture := aperture, Distance := distance,
                 Terms := [0, 0, 0] } 0 FLT_MAX with
    | .inl c => (true, c)
    | .inr (vm, res, tw, sm) =>
      if 1 < sm then (false, res)
      else if 0 < tw ∧ sm < FLT_MAX then
        (true,
          { res with
            Terms := (List.range 3).map (fun i =>
              termAt res.Terms i /
                (tw * valAt (__parameter_scales (.vignetting vm) i [focal]) 0)) })
      else (false, res)

/-- The sublist of vignetting records the loop actually uses: the model is
latched from the first record (records before the latch settles on a
non-`NONE` model are all used); afterwards records of a different model
are skipped. -/
def consideredVign : List lfLensCalibVignetting → lfVignettingModel →
    List lfLensCalibVignetting
  | [], _ => []
  | c :: rest, vm =>
    if vm ≠ .NONE ∧ vm ≠ c.Model then consideredVign rest vm
    else c :: consideredVign rest (if vm = .NONE then c.Model else vm)

/-- The records that actually contribute to the inverse-distance weighted
sum: the considered records encountered strictly before the first one
within the exact-match threshold. -/
def contributedVign (l : lfLens) (focal aperture distance : ℚ) :
    List lfLensCalibVignetting → lfVignettingModel → List lfLensCalibVignetting
  | [], _ => []
  | c :: rest, vm =>
    if vm ≠ .NONE ∧ vm ≠ c.Model then contributedVign l focal aperture distance rest vm
    else
      if vignettingDistSq l c focal aperture distance < vignExactSq then []
      else c :: contributedVign l focal aperture distance rest
        (if vm = .NONE then c.Model else vm)

/-- The smallest squared interpolation distance over the considered
records, starting from the `FLT_MAX` sentinel. -/
def smallestVignDistSq (l : lfLens) (focal aperture distance : ℚ) : ℚ :=
  ((consideredVign l.CalibVignetting .NONE).map
    (fun c => vignettingDistSq l c focal aperture distance)).foldl minQ FLT_MAX

/-- The total inverse-distance weight a run accumulates over a list of
records (each weight is `fabs` of the weight function at the squared
distance). -/
def weightSumVign (w : ℚ → ℚ) (l : lfLens) (focal aperture distance : ℚ)
    (cs : List lfLensCalibVignetting) : ℚ :=
  (cs.map (fun c => fabsQ (w (vignettingDistSq l c focal aperture distance)))).sum

/-- The model family a spline interpolation run latches: the incoming
value when it is already latched, otherwise the model of the first record
whose model is not the "no model" value. -/
def latchedModel {α μ : Type} [DecidableEq μ] (gm : α → μ) (nm : μ)
    (l : List α) (vm : μ) : μ :=
  if vm = nm then ((l.find? (fun c => gm c ≠ nm)).map gm).getD nm else vm

/-- The sublist of records a spline interpolation run actually uses:
those whose model equals the latched family (and is not the "no model"
value). -/
def restrictModel {α μ : Type} [DecidableEq μ] (gm : α → μ) (nm : μ)
    (l : List α) (vm : μ) : List α :=
  l.filter (fun c => gm c = latchedModel gm nm l vm ∧ gm c ≠ nm)

/-- The model latched by `InterpolateDistortion`: the model of the first
distortion record that is not `LF_DIST_MODEL_NONE`. -/
def firstDistortionModel (l : List lfLensCalibDistortion) : lfDistortionModel :=
  latchedModel (·.Model) .NONE l .NONE

/-- The first considered vignetting sample within the exact-match
threshold, if any. -/
def vignFind (l : lfLens) (focal aperture distance : ℚ)
    (cs : List lfLensCalibVignetting) : Option lfLensCalibVignetting :=
  cs.find? (fun c => vignettingDistSq l c focal aperture distance < vignExactSq)

section ConcreteInputs

/-- POLY5 distortion sample at focal 24 with `k1 = 0.05`, `k2 = 0`. -/
def recPoly5at24 : lfLensCalibDistortion :=
  ⟨.POLY5, 24, 24, false, [1/20, 0, 0, 0, 0]⟩

/-- POLY5 distortion sample at focal 70 with `k1 = -0.02`, `k2 = 0`. -/
def recPoly5at70 : lfLensCalibDistortion :=
  ⟨.POLY5, 70, 70, false, [-1/50, 0, 0, 0, 0]⟩

/-- 24–70 mm lens carrying exactly the two POLY5 samples above. -/
def lensPoly5 : lfLens :=
  ⟨some "T 24-70", 24, 70, 4, 4, ["m"], 1, 3/2, [recPoly5at24, recPoly5at70],
    [], [], [], []⟩

/-- A scratch distortion output record with recognizable initial
contents. -/
def resD0 : lfLensCalibDistortion := ⟨.NONE, 0, 0, false, [0, 0, 0, 0, 0]⟩

/-- POLY3 distortion sample at focal 24. -/
def recPoly3at24 : lfLensCalibDistortion :=
  ⟨.POLY3, 24, 24, false, [1/10, 0, 0, 0, 0]⟩

/-- POLY5 distortion sample at focal 50. -/
def recPoly5at50 : lfLensCalibDistortion :=
  ⟨.POLY5, 50, 50, false, [7/100, 0, 0, 0, 0]⟩

/-- Lens with a model-mixed distortion list: a POLY3 sample first, then a
POLY5 sample at focal 50. -/
def lensMixed : lfLens :=
  ⟨some "T 24-50", 24, 50, 4, 4, ["m"], 1, 3/2, [recPoly3at24, recPoly5at50],
    [], [], [], []⟩

/-- PA vignetting sample at `(20mm, f/4, 2m)` with zero terms. -/
def recVignFar : lfLensCalibVignetting := ⟨.PA, 20, 4, 2, [0, 0, 0]⟩

/-- 10–20 mm lens with the single vignetting sample above. -/
def lensVignFar : lfLens :=
  ⟨some "T 10-20", 10, 20, 4, 4, ["m"], 1, 3/2, [], [], [recVignFar], [], []⟩

/-- A scratch vignetting output record with recognizable initial
contents. -/
def resV0 : lfLensCalibVignetting := ⟨.NONE, 999, 999, 999, [1, 1, 1]⟩

/-- Vignetting sample whose model is `LF_VIGNETTING_MODEL_NONE`. -/
def recVignNone : lfLensCalibVignetting := ⟨.NONE, 50, 4, 10, [0, 0, 0]⟩

/-- Prime lens whose only vignetting sample has model NONE. -/
def lensVignNone : lfLens :=
  ⟨some "T 50", 50, 50, 4, 4, ["m"], 1, 3/2, [], [], [recVignNone], [], []⟩

/-- PA vignetting sample at `(50mm, f/4, 10m)`. -/
def recVignPA : lfLensCalibVignetting := ⟨.PA, 50, 4, 10, [1/10, 0, 0]⟩

/-- Prime lens with the single PA vignetting sample above. -/
def lensVignPA : lfLens :=
  ⟨some "T 50", 50, 50, 4, 4, ["m"], 1, 3/2, [], [], [recVignPA], [], []⟩

/-- Vignetting sample at focal 51 on the prime lens (for the focal-axis
normalization edge case). -/
def recVignAt51 : lfLensCalibVignetting := ⟨.PA, 51, 4, 10, [0, 0, 0]⟩

/-- A name-parse outcome with no matched groups. -/
def parseNone : NameParse := ⟨none, none, none⟩

/-- Constant unit weight function (stand-in for the inverse-distance
weight in closed instances; the control-flow facts being checked do not
depend on the weight's value). -/
def unitWeight : ℚ → ℚ := fun _ => 1

/-- Distortion record with model NONE. -/
def recDistNone : lfLensCalibDistortion := ⟨.NONE, 30, 30, false, [0, 0, 0, 0, 0]⟩

/-- TCA record with model NONE. -/
def recTCANone : lfLensCalibTCA :=
  ⟨.NONE, 30, [1, 1, 0, 0, 0, 0, 0, 0, 0, 0, 0, 0]⟩

/-- Crop record with mode NO_CROP. -/
def recCropNone : lfLensCalibCrop := ⟨30, .NO_CROP, [0, 0, 0, 0]⟩

/-- Lens whose distortion, TCA and crop lists hold only no-model records
and whose vignetting list is empty. -/
def lensAllNone : lfLens :=
  ⟨some "T 30", 30, 30, 4, 4, ["m"], 1, 3/2, [recDistNone], [recTCANone], [],
    [recCropNone], []⟩

/-- The key tuple of a vignetting record, in the order `cmp_vignetting`
compares it (focal, distance, aperture). -/
def vignKey (v : lfLensCalibVignetting) : ℚ × ℚ × ℚ :=
  (v.Focal, v.Distance, v.Aperture)

end ConcreteInputs

/-! ### Helper lemmas -/

theorem beqQ_iff (a b : ℚ) : beqQ a b = true ↔ a = b := by
  simp only [beqQ, Bool.and_eq_true, beq_iff_eq]
  constructor
  · intro h
    exact Rat.ext h.1 h.2
  · intro h
    exact ⟨congrArg Rat.num h, congrArg Rat.den h⟩

theorem powQ_eq_pow (x : ℚ) (n : ℕ) : powQ x n = x ^ n := by
  induction n with
  | zero => rfl
  | succ n ih => rw [powQ, ih, pow_succ, mul_comm]

theorem delobj_spec {α : Type} (l : List α) (idx : ℤ) :
    ((_lf_delobj l idx).1 = true ↔ 0 ≤ idx ∧ idx < (l.length : ℤ)) ∧
    ((_lf_delobj l idx).1 = true →
      (_lf_delobj l idx).2 = l.take idx.toNat ++ l.drop (idx.toNat + 1)) ∧
    ((_lf_delobj l idx).1 = false → (_lf_delobj l idx).2 = l) := by
  unfold _lf_delobj
  split
  · refine ⟨?_, ?_, ?_⟩ <;> simp_all <;> omega
  · refine ⟨?_, ?_, ?_⟩ <;> simp_all

theorem addobj_mem {α : Type} (cmp : α → α → Bool) (l : List α) (v : α) :
    ∀ x ∈ _lf_addobj cmp l v, x ∈ l ∨ x = v := by
  induction l with
  | nil => simp [_lf_addobj]
  | cons y ys ih =>
    intro x hx
    unfold _lf_addobj at hx
    by_cases hc : cmp v y = true
    · rw [if_pos hc] at hx
      rcases List.mem_cons.mp hx with rfl | hx'
      · exact .inr rfl
      · exact .inl (List.mem_cons_of_mem _ hx')
    · rw [if_neg hc] at hx
      rcases List.mem_cons.mp hx with rfl | hx'
      · exact .inl (List.mem_cons_self _ _)
      · rcases ih x hx' with h' | h'
        · exact .inl (List.mem_cons_of_mem _ h')
        · exact .inr h'

theorem addobj_no_match {α : Type} (cmp : α → α → Bool) (l : List α) (v : α)
    (h : ∀ x ∈ l, cmp v x = false) : _lf_addobj cmp l v = l ++ [v] := by
  induction l with
  | nil => rfl
  | cons y ys ih =>
    unfold _lf_addobj
    rw [if_neg (by simp [h y (List.mem_cons_self _ _)])]
    rw [ih fun x hx => h x (List.mem_cons_of_mem _ hx)]
    rfl

theorem addobj_first_match {α : Type} (cmp : α → α → Bool) :
    ∀ (l : List α) (v : α), (∃ x ∈ l, cmp v x = true) →
      ∃ i, ∃ hi : i < l.length, cmp v (l.get ⟨i, hi⟩) = true ∧
        _lf_addobj cmp l v = l.set i v := by
  intro l
  induction l with
  | nil => intro v h; simp at h
  | cons x xs ih =>
    intro v h
    by_cases hc : cmp v x = true
    · exact ⟨0, by simp, by simpa using hc, by simp [_lf_addobj, hc]⟩
    · have h' : ∃ y ∈ xs, cmp v y = true := by
        rcases h with ⟨y, hy, hcy⟩
        rcases List.mem_cons.mp hy with rfl | hy'
        · exact absurd hcy hc
        · exact ⟨y, hy', hcy⟩
      rcases ih v h' with ⟨i, hi, hcm, heq⟩
      refine ⟨i + 1, by simpa using hi, by simpa using hcm, ?_⟩
      simp only [_lf_addobj, if_neg hc, heq, List.set_cons_succ]

theorem addobj_pairwise {α β : Type} (κ : α → β) (cmp : α → α → Bool)
    (hcmp : ∀ a b, cmp a b = true ↔ κ a = κ b) (l : List α) (v : α)
    (h : l.Pairwise (fun a b => κ a ≠ κ b)) :
    (_lf_addobj cmp l v).Pairwise (fun a b => κ a ≠ κ b) := by
  induction l with
  | nil => simp [_lf_addobj]
  | cons x xs ih =>
    rw [List.pairwise_cons] at h
    by_cases hc : cmp v x = true
    · unfold _lf_addobj
      rw [if_pos hc, List.pairwise_cons]
      refine ⟨?_, h.2⟩
      intro y hy
      rw [(hcmp v x).mp hc]
      exact h.1 y hy
    · unfold _lf_addobj
      rw [if_neg hc, List.pairwise_cons]
      refine ⟨?_, ih h.2⟩
      intro y hy
      rcases addobj_mem cmp xs v y hy with h' | h'
      · exact h.1 y h'
      · intro he
        rw [h'] at he
        exact hc ((hcmp v x).mpr he.symm)

theorem interpDist_cases (l : lfLens) (focal : ℚ) (res : lfLensCalibDistortion) :
    InterpolateDistortion l focal res = (false, res) ∨
      (InterpolateDistortion l focal res).1 = true := by
  unfold InterpolateDistortion
  split
  · exact .inl rfl
  · split
    · exact .inr rfl
    · split
      · exact .inl rfl
      · exact .inr rfl
      · exact .inr rfl
      · exact .inr rfl

theorem interpTCA_cases (l : lfLens) (focal : ℚ) (res : lfLensCalibTCA) :
    InterpolateTCA l focal res = (false, res) ∨
      (InterpolateTCA l focal res).1 = true := by
  unfold InterpolateTCA
  split
  · exact .inl rfl
  · split
    · exact .inr rfl
    · split
      · exact .inl rfl
      · exact .inr rfl
      · exact .inr rfl
      · exact .inr rfl

theorem interpCrop_cases (l : lfLens) (focal : ℚ) (res : lfLensCalibCrop) :
    InterpolateCrop l focal res = (false, res) ∨
      (InterpolateCrop l focal res).1 = true := by
  unfold InterpolateCrop
  split
  · exact .inl rfl
  · split
    · exact .inr rfl
    · split
      · exact .inl rfl
      · exact .inr rfl
      · exact .inr rfl
      · exact .inr rfl

theorem interpFov_cases (l : lfLens) (focal : ℚ) (res : lfLensCalibFov) :
    InterpolateFov l focal res = (false, res) ∨
      (InterpolateFov l focal res).1 = true := by
  unfold InterpolateFov
  split
  · exact .inl rfl
  · split
    · exact .inr rfl
    · split
      · exact .inl rfl
      · split
        · exact .inl rfl
        · exact .inr rfl
        · exact .inr rfl
        · exact .inr rfl

theorem splineLoop_exact {α μ : Type} [DecidableEq μ] (gm : α → μ) (nm : μ)
    (gf : α → ℚ) (focal : ℚ) :
    ∀ (l : List α) (vm : μ) (sp : Spline α),
      (∃ c ∈ l, gf c = focal ∧ gm c ≠ nm ∧ gm c = latchedModel gm nm l vm) →
      ∃ c', c' ∈ l ∧ gf c' = focal ∧ gm c' = latchedModel gm nm l vm ∧
        splineLoop gm nm gf focal l vm sp = .inl c' := by
  intro l
  induction l with
  | nil => intro vm sp h; simp at h
  | cons c rest ih =>
    intro vm sp h
    by_cases h1 : gm c = nm
    · have hl : latchedModel gm nm (c :: rest) vm = latchedModel gm nm rest vm := by
        unfold latchedModel
        rw [List.find?_cons_of_neg _ (by simp [h1])]
      have hstep : splineLoop gm nm gf focal (c :: rest) vm sp =
          splineLoop gm nm gf focal rest vm sp := by
        simp only [splineLoop]
        rw [if_pos h1]
      have h' : ∃ c₀ ∈ rest, gf c₀ = focal ∧ gm c₀ ≠ nm ∧
          gm c₀ = latchedModel gm nm rest vm := by
        rcases h with ⟨c₀, hc₀, hf₀, hm₀, hm₀'⟩
        rcases List.mem_cons.mp hc₀ with rfl | hc₀'
        · exact absurd h1 hm₀
        · exact ⟨c₀, hc₀', hf₀, hm₀, by rw [← hl]; exact hm₀'⟩
      rcases ih vm sp h' with ⟨c', hc', hf', hm', heq⟩
      exact ⟨c', List.mem_cons_of_mem _ hc', hf', by rw [hl]; exact hm',
        by rw [hstep]; exact heq⟩
    · by_cases h2 : vm ≠ nm ∧ vm ≠ gm c
      · have hl : latchedModel gm nm (c :: rest) vm = vm := by
          unfold latchedModel
          rw [if_neg h2.1]
        have hl' : latchedModel gm nm rest vm = vm := by
          unfold latchedModel
          rw [if_neg h2.1]
        have hstep : splineLoop gm nm gf focal (c :: rest) vm sp =
            splineLoop gm nm gf focal rest vm sp := by
          simp only [splineLoop]
          rw [if_neg (by simp [h1]), if_pos h2]
        have h' : ∃ c₀ ∈ rest, gf c₀ = focal ∧ gm c₀ ≠ nm ∧
            gm c₀ = latchedModel gm nm rest vm := by
          rcases h with ⟨c₀, hc₀, hf₀, hm₀, hm₀'⟩
          rw [hl] at hm₀'
          rcases List.mem_cons.mp hc₀ with rfl | hc₀'
          · exact absurd hm₀'.symm h2.2
          · exact ⟨c₀, hc₀', hf₀, hm₀, by rw [hl']; exact hm₀'⟩
        rcases ih vm sp h' with ⟨c', hc', hf', hm', heq⟩
        exact ⟨c', List.mem_cons_of_mem _ hc', hf',
          by rw [hl, ← hl']; exact hm', by rw [hstep]; exact heq⟩
      · have hvm' : (if vm = nm then gm c else vm) = gm c := by
          by_cases hv : vm = nm
          · rw [if_pos hv]
          · rw [if_neg hv]
            rcases not_and_or.mp h2 with hv' | hv'
            · exact absurd (not_not.mp hv') hv
            · exact not_not.mp hv'
        have hl : latchedModel gm nm (c :: rest) vm = gm c := by
          unfold latchedModel
          by_cases hv : vm = nm
          · rw [if_pos hv, List.find?_cons_of_pos _ (by simp [h1])]
            rfl
          · rw [if_neg hv]
            rcases not_and_or.mp h2 with hv' | hv'
            · exact absurd (not_not.mp hv') hv
            · exact not_not.mp hv'
        by_cases h3 : focal - gf c = 0
        · refine ⟨c, List.mem_cons_self _ _, by linarith [sub_eq_zero.mp h3],
            by rw [hl], ?_⟩
          simp only [splineLoop]
          rw [if_neg (by simp [h1]), if_neg h2, if_pos h3]
        · have hl' : latchedModel gm nm rest (gm c) = gm c := by
            unfold latchedModel
            rw [if_neg h1]
          have hstep : splineLoop gm nm gf focal (c :: rest) vm sp =
              splineLoop gm nm gf focal rest (gm c)
                (__insert_spline sp (focal - gf c) c) := by
            simp only [splineLoop]
            rw [if_neg (by simp [h1]), if_neg h2, if_neg h3, hvm']
          have h' : ∃ c₀ ∈ rest, gf c₀ = focal ∧ gm c₀ ≠ nm ∧
              gm c₀ = latchedModel gm nm rest (gm c) := by
            rcases h with ⟨c₀, hc₀, hf₀, hm₀, hm₀'⟩
            rw [hl] at hm₀'
            rcases List.mem_cons.mp hc₀ with rfl | hc₀'
            · exact absurd (by rw [hf₀]; ring) h3
            · exact ⟨c₀, hc₀', hf₀, hm₀, by rw [hl']; exact hm₀'⟩
          rcases ih (gm c) (__insert_spline sp (focal - gf c) c) h' with
            ⟨c', hc', hf', hm', heq⟩
          exact ⟨c', List.mem_cons_of_mem _ hc', hf',
            by rw [hl, ← hl']; exact hm', by rw [hstep]; exact heq⟩

theorem restrictModel_cons_skip {α μ : Type} [DecidableEq μ] (gm : α → μ) (nm : μ)
    (c : α) (rest : List α) (vm : μ)
    (hl : latchedModel gm nm (c :: rest) vm = latchedModel gm nm rest vm)
    (hc : ¬(gm c = latchedModel gm nm (c :: rest) vm ∧ gm c ≠ nm)) :
    restrictModel gm nm (c :: rest) vm = restrictModel gm nm rest vm := by
  unfold restrictModel
  rw [List.filter_cons_of_neg (by simpa using hc)]
  refine List.filter_congr ?_
  intro a _
  rw [hl]

theorem splineLoop_restrict {α μ : Type} [DecidableEq μ] (gm : α → μ) (nm : μ)
    (gf : α → ℚ) (focal : ℚ) :
    ∀ (l : List α) (vm : μ) (sp : Spline α),
      splineLoop gm nm gf focal l vm sp =
        splineLoop gm nm gf focal (restrictModel gm nm l vm) vm sp := by
  intro l
  induction l with
  | nil => intro vm sp; rfl
  | cons c rest ih =>
    intro vm sp
    by_cases h1 : gm c = nm
    · have hl : latchedModel gm nm (c :: rest) vm = latchedModel gm nm rest vm := by
        unfold latchedModel
        rw [List.find?_cons_of_neg _ (by simp [h1])]
      have hr := restrictModel_cons_skip gm nm c rest vm hl
        (fun hcc => hcc.2 h1)
      have hstep : splineLoop gm nm gf focal (c :: rest) vm sp =
          splineLoop gm nm gf focal rest vm sp := by
        simp only [splineLoop]
        rw [if_pos h1]
      rw [hstep, hr, ih]
    · by_cases h2 : vm ≠ nm ∧ vm ≠ gm c
      · have hl : latchedModel gm nm (c :: rest) vm = vm := by
          unfold latchedModel
          rw [if_neg h2.1]
        have hl' : latchedModel gm nm rest vm = vm := by
          unfold latchedModel
          rw [if_neg h2.1]
        have hr := restrictModel_cons_skip gm nm c rest vm (by rw [hl, hl'])
          (fun hcc => h2.2 (by rw [← hl]; exact hcc.1.symm))
        have hstep : splineLoop gm nm gf focal (c :: rest) vm sp =
            splineLoop gm nm gf focal rest vm sp := by
          simp only [splineLoop]
          rw [if_neg (by simp [h1]), if_pos h2]
        rw [hstep, hr, ih]
      · have hvm' : (if vm = nm then gm c else vm) = gm c := by
          by_cases hv : vm = nm
          · rw [if_pos hv]
          · rw [if_neg hv]
            rcases not_and_or.mp h2 with hv' | hv'
            · exact absurd (not_not.mp hv') hv
            · exact not_not.mp hv'
        have hl : latchedModel gm nm (c :: rest) vm = gm c := by
          unfold latchedModel
          by_cases hv : vm = nm
          · rw [if_pos hv, List.find?_cons_of_pos _ (by simp [h1])]
            rfl
          · rw [if_neg hv]
            rcases not_and_or.mp h2 with hv' | hv'
            · exact absurd (not_not.mp hv') hv
            · exact not_not.mp hv'
        have hl' : latchedModel gm nm rest (gm c) = gm c := by
          unfold latchedModel
          rw [if_neg h1]
        have hr : restrictModel gm nm (c :: rest) vm =
            c :: restrictModel gm nm rest (gm c) := by
          unfold restrictModel
          rw [List.filter_cons_of_pos (by simp [hl, h1])]
          congr 1
          refine List.filter_congr ?_
          intro a _
          rw [hl, hl']
        rw [hr]
        simp only [splineLoop, if_neg h1, if_neg h2]
        by_cases h3 : focal - gf c = 0
        · rw [if_pos h3, if_pos h3]
        · rw [if_neg h3, if_neg h3, hvm']
          exact ih _ _

theorem restrictModel_allNone {α μ : Type} [DecidableEq μ] (gm : α → μ) (nm : μ)
    (l : List α) (vm : μ) (h : ∀ c ∈ l, gm c = nm) :
    restrictModel gm nm l vm = [] := by
  unfold restrictModel
  rw [List.filter_eq_nil_iff]
  intro a ha
  simp [h a ha]

theorem consideredVign_cons (c : lfLensCalibVignetting)
    (cs : List lfLensCalibVignetting) :
    consideredVign (c :: cs) .NONE = c :: consideredVign cs c.Model := rfl

theorem vignLoop_calib_irrel (w : ℚ → ℚ) (l : lfLens)
    (X : List lfLensCalibVignetting) (focal aperture distance : ℚ) :
    ∀ (cs : List lfLensCalibVignetting) (vm : lfVignettingModel)
      (res : lfLensCalibVignetting) (tw sm : ℚ),
      vignLoop w { l with CalibVignetting := X } focal aperture distance
          cs vm res tw sm =
        vignLoop w l focal aperture distance cs vm res tw sm := by
  intro cs
  induction cs with
  | nil => intro vm res tw sm; rfl
  | cons c rest ih =>
    intro vm res tw sm
    simp only [vignLoop]
    have hd : vignettingDistSq { l with CalibVignetting := X } c
        focal aperture distance = vignettingDistSq l c focal aperture distance := rfl
    rw [hd]
    by_cases hskip : vm ≠ .NONE ∧ vm ≠ c.Model
    · rw [if_pos hskip, if_pos hskip, ih]
    · rw [if_neg hskip, if_neg hskip]
      by_cases hs : vignettingDistSq l c focal aperture distance < vignExactSq
      · rw [if_pos hs, if_pos hs]
      · rw [if_neg hs, if_neg hs, ih]

theorem consideredVign_cons_eq (c : lfLensCalibVignetting)
    (cs : List lfLensCalibVignetting) (vm : lfVignettingModel) :
    consideredVign (c :: cs) vm =
      if vm ≠ .NONE ∧ vm ≠ c.Model then consideredVign cs vm
      else c :: consideredVign cs (if vm = .NONE then c.Model else vm) := by
  rw [consideredVign.eq_def]

theorem vignLoop_considered (w : ℚ → ℚ) (l : lfLens) (focal aperture distance : ℚ) :
    ∀ (cs : List lfLensCalibVignetting) (vm : lfVignettingModel)
      (res : lfLensCalibVignetting) (tw sm : ℚ),
      vignLoop w l focal aperture distance cs vm res tw sm =
        vignLoop w l focal aperture distance (consideredVign cs vm) vm res tw sm := by
  intro cs
  induction cs with
  | nil => intro vm res tw sm; rfl
  | cons c rest ih =>
    intro vm res tw sm
    by_cases hskip : vm ≠ .NONE ∧ vm ≠ c.Model
    · have hc : consideredVign (c :: rest) vm = consideredVign rest vm := by
        rw [consideredVign_cons_eq, if_pos hskip]
      rw [hc]
      conv_lhs => simp only [vignLoop]
      rw [if_pos hskip, ih]
    · have hc : consideredVign (c :: rest) vm =
          c :: consideredVign rest (if vm = .NONE then c.Model else vm) :=
        by rw [consideredVign_cons_eq, if_neg hskip]
      rw [hc]
      simp only [vignLoop]
      rw [if_neg hskip, if_neg hskip]
      by_cases hs : vignettingDistSq l c focal aperture distance < vignExactSq
      · rw [if_pos hs, if_pos hs]
      · rw [if_neg hs, if_neg hs, ih]

theorem interpDist_restrict (l : lfLens) (focal : ℚ) (res : lfLensCalibDistortion) :
    InterpolateDistortion l focal res =
      InterpolateDistortion
        { l with CalibDistortion :=
            restrictModel (·.Model) .NONE l.CalibDistortion .NONE } focal res := by
  by_cases h0 : l.CalibDistortion = []
  · simp [InterpolateDistortion, h0, restrictModel]
  · by_cases h1 : restrictModel (·.Model) .NONE l.CalibDistortion
        (lfDistortionModel.NONE) = []
    · have hloop := splineLoop_restrict (·.Model) .NONE (·.Focal) focal
        l.CalibDistortion .NONE (initSpline (α := lfLensCalibDistortion))
      rw [h1] at hloop
      unfold InterpolateDistortion
      rw [if_neg h0, hloop]
      simp [h1, splineLoop, initSpline]
    · unfold InterpolateDistortion
      rw [if_neg h0, if_neg (by simpa using h1),
        splineLoop_restrict (·.Model) .NONE (·.Focal) focal l.CalibDistortion .NONE
          (initSpline (α := lfLensCalibDistortion))]

theorem interpTCA_restrict (l : lfLens) (focal : ℚ) (res : lfLensCalibTCA) :
    InterpolateTCA l focal res =
      InterpolateTCA
        { l with CalibTCA :=
            restrictModel (·.Model) .NONE l.CalibTCA .NONE } focal res := by
  by_cases h0 : l.CalibTCA = []
  · simp [InterpolateTCA, h0, restrictModel]
  · by_cases h1 : restrictModel (·.Model) .NONE l.CalibTCA (lfTCAModel.NONE) = []
    · have hloop := splineLoop_restrict (·.Model) .NONE (·.Focal) focal
        l.CalibTCA .NONE (initSpline (α := lfLensCalibTCA))
      rw [h1] at hloop
      unfold InterpolateTCA
      rw [if_neg h0, hloop]
      simp [h1, splineLoop, initSpline]
    · unfold InterpolateTCA
      rw [if_neg h0, if_neg (by simpa using h1),
        splineLoop_restrict (·.Model) .NONE (·.Focal) focal l.CalibTCA .NONE
          (initSpline (α := lfLensCalibTCA))]

theorem interpCrop_restrict (l : lfLens) (focal : ℚ) (res : lfLensCalibCrop) :
    InterpolateCrop l focal res =
      InterpolateCrop
        { l with CalibCrop :=
            restrictModel (·.CropMode) .NO_CROP l.CalibCrop .NO_CROP } focal res := by
  by_cases h0 : l.CalibCrop = []
  · simp [InterpolateCrop, h0, restrictModel]
  · by_cases h1 : restrictModel (·.CropMode) .NO_CROP l.CalibCrop
        (lfCropMode.NO_CROP) = []
    · have hloop := splineLoop_restrict (·.CropMode) .NO_CROP (·.Focal) focal
        l.CalibCrop .NO_CROP (initSpline (α := lfLensCalibCrop))
      rw [h1] at hloop
      unfold InterpolateCrop
      rw [if_neg h0, hloop]
      simp [h1, splineLoop, initSpline]
    · unfold InterpolateCrop
      rw [if_neg h0, if_neg (by simpa using h1),
        splineLoop_restrict (·.CropMode) .NO_CROP (·.Focal) focal l.CalibCrop .NO_CROP
          (initSpline (α := lfLensCalibCrop))]

theorem interpVign_considered (w : ℚ → ℚ) (l : lfLens)
    (focal aperture distance : ℚ) (res : lfLensCalibVignetting) :
    InterpolateVignetting w l focal aperture distance res =
      InterpolateVignetting w
        { l with CalibVignetting := consideredVign l.CalibVignetting .NONE }
        focal aperture distance res := by
  by_cases h0 : l.CalibVignetting = []
  · simp [InterpolateVignetting, h0, consideredVign]
  · obtain ⟨c, cs, hcc⟩ : ∃ c cs, l.CalibVignetting = c :: cs := by
      cases hcv : l.CalibVignetting with
      | nil => exact absurd hcv h0
      | cons c cs => exact ⟨c, cs, rfl⟩
    have h1 : consideredVign l.CalibVignetting .NONE ≠ [] := by
      rw [hcc, consideredVign_cons]
      simp
    unfold InterpolateVignetting
    rw [if_neg h0, if_neg (by simpa using h1),
      vignLoop_calib_irrel w l (consideredVign l.CalibVignetting .NONE)
        focal aperture distance,
      vignLoop_considered w l focal aperture distance]

theorem minQ_le_iff (a x b : ℚ) : minQ a x ≤ b ↔ a ≤ b ∨ x ≤ b := by
  unfold minQ
  by_cases hxa : x < a
  · rw [if_pos hxa]
    constructor
    · exact fun h => .inr h
    · rintro (h | h)
      · linarith
      · exact h
  · rw [if_neg hxa]
    constructor
    · exact fun h => .inl h
    · rintro (h | h)
      · exact h
      · linarith [not_lt.mp hxa]

theorem foldl_minQ_le_iff (xs : List ℚ) :
    ∀ (a b : ℚ), xs.foldl minQ a ≤ b ↔ a ≤ b ∨ ∃ x ∈ xs, x ≤ b := by
  induction xs with
  | nil => intro a b; simp
  | cons x xs ih =>
    intro a b
    rw [List.foldl_cons, ih, minQ_le_iff]
    simp only [List.mem_cons]
    constructor
    · rintro ((h | h) | ⟨y, hy, hyb⟩)
      · exact .inl h
      · exact .inr ⟨x, .inl rfl, h⟩
      · exact .inr ⟨y, .inr hy, hyb⟩
    · rintro (h | ⟨y, rfl | hy, hyb⟩)
      · exact .inl (.inl h)
      · exact .inl (.inr hyb)
      · exact .inr ⟨y, hy, hyb⟩

theorem fabsQ_pos (q : ℚ) (h : q ≠ 0) : 0 < fabsQ q := by
  unfold fabsQ
  by_cases hq : q < 0
  · rw [if_pos hq]
    linarith
  · rw [if_neg hq]
    exact lt_of_le_of_ne (not_lt.mp hq) (Ne.symm h)

theorem vignLoop_find_some (w : ℚ → ℚ) (l : lfLens) (focal aperture distance : ℚ) :
    ∀ (cs : List lfLensCalibVignetting) (vm : lfVignettingModel)
      (res : lfLensCalibVignetting) (tw sm : ℚ) (c : lfLensCalibVignetting),
      vignFind l focal aperture distance (consideredVign cs vm) = some c →
      vignLoop w l focal aperture distance cs vm res tw sm = .inl c := by
  intro cs
  induction cs with
  | nil => intro vm res tw sm c h; simp [vignFind, consideredVign] at h
  | cons c₀ rest ih =>
    intro vm res tw sm c h
    by_cases hskip : vm ≠ .NONE ∧ vm ≠ c₀.Model
    · rw [consideredVign_cons_eq, if_pos hskip] at h
      simp only [vignLoop]
      rw [if_pos hskip]
      exact ih vm res tw sm c h
    · rw [consideredVign_cons_eq, if_neg hskip] at h
      by_cases hs : vignettingDistSq l c₀ focal aperture distance < vignExactSq
      · rw [vignFind, List.find?_cons_of_pos _ (by simpa using hs)] at h
        simp only [Option.some.injEq] at h
        simp only [vignLoop]
        rw [if_neg hskip, if_pos hs, h]
      · rw [vignFind, List.find?_cons_of_neg _ (by simpa using hs)] at h
        simp only [vignLoop]
        rw [if_neg hskip, if_neg hs]
        exact ih _ _ _ _ c h

theorem vignLoop_find_none (w : ℚ → ℚ) (l : lfLens) (focal aperture distance : ℚ) :
    ∀ (cs : List lfLensCalibVignetting) (vm : lfVignettingModel)
      (res : lfLensCalibVignetting) (tw sm : ℚ),
      vignFind l focal aperture distance (consideredVign cs vm) = none →
      ∃ vm' res',
        vignLoop w l focal aperture distance cs vm res tw sm =
          .inr (vm', res',
            tw + weightSumVign w l focal aperture distance (consideredVign cs vm),
            ((consideredVign cs vm).map
              (fun c => vignettingDistSq l c focal aperture distance)).foldl minQ sm) := by
  intro cs
  induction cs with
  | nil =>
    intro vm res tw sm h
    refine ⟨vm, res, ?_⟩
    simp [vignLoop, consideredVign, weightSumVign]
  | cons c₀ rest ih =>
    intro vm res tw sm h
    by_cases hskip : vm ≠ .NONE ∧ vm ≠ c₀.Model
    · rw [consideredVign_cons_eq, if_pos hskip] at h ⊢
      obtain ⟨vm', res', heq⟩ := ih vm res tw sm h
      refine ⟨vm', res', ?_⟩
      simp only [vignLoop]
      rw [if_pos hskip, heq]
    · rw [consideredVign_cons_eq, if_neg hskip] at h ⊢
      have hs : ¬vignettingDistSq l c₀ focal aperture distance < vignExactSq := by
        intro hs
        rw [vignFind, List.find?_cons_of_pos _ (by simpa using hs)] at h
        cases h
      rw [vignFind, List.find?_cons_of_neg _ (by simpa using hs)] at h
      simp only [vignLoop]
      rw [if_neg hskip, if_neg hs]
      have harith : tw + weightSumVign w l focal aperture distance
          (c₀ :: consideredVign rest (if vm = .NONE then c₀.Model else vm)) =
          (tw + fabsQ (w (vignettingDistSq l c₀ focal aperture distance))) +
            weightSumVign w l focal aperture distance
              (consideredVign rest (if vm = .NONE then c₀.Model else vm)) := by
        simp only [weightSumVign, List.map_cons, List.sum_cons]
        ring
      have hfold : ((c₀ :: consideredVign rest
            (if vm = .NONE then c₀.Model else vm)).map
            (fun c => vignettingDistSq l c focal aperture distance)).foldl minQ sm =
          ((consideredVign rest (if vm = .NONE then c₀.Model else vm)).map
            (fun c => vignettingDistSq l c focal aperture distance)).foldl minQ
            (minQ sm (vignettingDistSq l c₀ focal aperture distance)) := rfl
      rw [harith, hfold]
      exact ih _ _ _ _ h

theorem beqQ_refl (a : ℚ) : beqQ a a = true := by simp [beqQ]

theorem fillField_sent (s x : ℚ) : fillField s s x = x := by
  simp [fillField, beqQ_refl]

theorem fillField_ne (c s x : ℚ) (hx : x ≠ 0) : fillField c s x = x := by
  simp [fillField, hx]

theorem fillField_idem (c s x : ℚ) :
    fillField c s (fillField c s x) = fillField c s x := by
  unfold fillField
  by_cases hb : beqQ c s = false
  · by_cases hx : x = 0
    · by_cases hc : c = 0 <;> simp [hb, hx, hc]
    · simp [hb, hx]
  · simp [hb]

theorem GuessParameters_via (p : NameParse) (l : lfLens) :
    GuessParameters p l =
      { l with
        MinFocal := (gpFields (gpCands p l).1 (gpCands p l).2.1 (gpCands p l).2.2.1
          (gpCands p l).2.2.2 l.MinFocal l.MaxFocal l.MinAperture l.MaxAperture).1,
        MaxFocal := (gpFields (gpCands p l).1 (gpCands p l).2.1 (gpCands p l).2.2.1
          (gpCands p l).2.2.2 l.MinFocal l.MaxFocal l.MinAperture l.MaxAperture).2.1,
        MinAperture := (gpFields (gpCands p l).1 (gpCands p l).2.1 (gpCands p l).2.2.1
          (gpCands p l).2.2.2 l.MinFocal l.MaxFocal l.MinAperture l.MaxAperture).2.2.1,
        MaxAperture := (gpFields (gpCands p l).1 (gpCands p l).2.1 (gpCands p l).2.2.1
          (gpCands p l).2.2.2 l.MinFocal l.MaxFocal l.MinAperture l.MaxAperture).2.2.2 } :=
  rfl

theorem gpCands_GP (p : NameParse) (l : lfLens) :
    gpCands p (GuessParameters p l) = gpCands p l := rfl

theorem GP_MinFocal (p : NameParse) (l : lfLens) :
    (GuessParameters p l).MinFocal =
      (gpFields (gpCands p l).1 (gpCands p l).2.1 (gpCands p l).2.2.1
        (gpCands p l).2.2.2 l.MinFocal l.MaxFocal l.MinAperture l.MaxAperture).1 := rfl

theorem GP_MaxFocal (p : NameParse) (l : lfLens) :
    (GuessParameters p l).MaxFocal =
      (gpFields (gpCands p l).1 (gpCands p l).2.1 (gpCands p l).2.2.1
        (gpCands p l).2.2.2 l.MinFocal l.MaxFocal l.MinAperture l.MaxAperture).2.1 := rfl

theorem GP_MinAperture (p : NameParse) (l : lfLens) :
    (GuessParameters p l).MinAperture =
      (gpFields (gpCands p l).1 (gpCands p l).2.1 (gpCands p l).2.2.1
        (gpCands p l).2.2.2 l.MinFocal l.MaxFocal l.MinAperture l.MaxAperture).2.2.1 := rfl

theorem GP_MaxAperture (p : NameParse) (l : lfLens) :
    (GuessParameters p l).MaxAperture =
      (gpFields (gpCands p l).1 (gpCands p l).2.1 (gpCands p l).2.2.1
        (gpCands p l).2.2.2 l.MinFocal l.MaxFocal l.MinAperture l.MaxAperture).2.2.2 := rfl

theorem gpFields_idem (m x a b MinF MaxF MinA MaxA : ℚ) :
    gpFields m x a b
      (gpFields m x a b MinF MaxF MinA MaxA).1
      (gpFields m x a b MinF MaxF MinA MaxA).2.1
      (gpFields m x a b MinF MaxF MinA MaxA).2.2.1
      (gpFields m x a b MinF MaxF MinA MaxA).2.2.2 =
      gpFields m x a b MinF MaxF MinA MaxA := by
  simp only [gpFields]
  by_cases hsg : (MinA = 0 ∨ MinF = 0)
  · simp only [if_pos hsg]
    by_cases hsg2 : (fillField a INT_MAX_F MinA = 0 ∨ fillField m INT_MAX_F MinF = 0)
    · simp only [if_pos hsg2, fillField_idem]
      refine congrArg (fun t => (fillField m INT_MAX_F MinF, t, fillField a INT_MAX_F MinA,
        fillField b INT_MIN_F MaxA)) ?_
      by_cases hX1 : fillField x INT_MIN_F MaxF = 0
      · rw [if_pos hX1]
        by_cases hF1 : fillField m INT_MAX_F MinF = 0
        · rw [hF1]
          by_cases hbx : beqQ x INT_MIN_F = false
          · by_cases hMaxF : MaxF = 0
            · have hx0 : x = 0 := by
                rw [fillField, if_pos ⟨hbx, hMaxF⟩] at hX1
                exact hX1
              simp [fillField, hbx, hx0, fillField_idem, hF1]
            · rw [fillField_ne x INT_MIN_F MaxF hMaxF] at hX1
              exact absurd hX1 hMaxF
          · simp [fillField, hbx, fillField_idem, hF1]
        · rw [fillField_ne x INT_MIN_F _ hF1, if_neg hF1]
      · rw [if_neg hX1, fillField_ne x INT_MIN_F _ hX1, if_neg hX1]
    · simp only [if_neg hsg2, fillField_sent]
      push_neg at hsg2
      by_cases hX1 : fillField x INT_MIN_F MaxF = 0
      · rw [if_pos hX1, if_neg hsg2.2]
      · rw [if_neg hX1, if_neg hX1]
  · simp only [if_neg hsg, fillField_sent]
    push_neg at hsg
    by_cases hX : MaxF = 0
    · rw [if_pos hX, if_neg hsg.2]
    · rw [if_neg hX, if_neg hX]

/-! ### Claim theorems -/

/-- C1 (amended): for `InterpolateDistortion`, `InterpolateTCA`,
`InterpolateCrop` and `InterpolateFov`, a `false` return leaves the
caller-supplied output record unmodified; `InterpolateVignetting` leaves
it unmodified on failure only when the calibration list is empty (with a
non-empty list the output is overwritten before any failure return). -/
theorem interp_false_leaves_output :
    (∀ (l : lfLens) (focal : ℚ) (res : lfLensCalibDistortion),
        (InterpolateDistortion l focal res).1 = false →
        (InterpolateDistortion l focal res).2 = res) ∧
    (∀ (l : lfLens) (focal : ℚ) (res : lfLensCalibTCA),
        (InterpolateTCA l focal res).1 = false →
        (InterpolateTCA l focal res).2 = res) ∧
    (∀ (l : lfLens) (focal : ℚ) (res : lfLensCalibCrop),
        (InterpolateCrop l focal res).1 = false →
        (InterpolateCrop l focal res).2 = res) ∧
    (∀ (l : lfLens) (focal : ℚ) (res : lfLensCalibFov),
        (InterpolateFov l focal res).1 = false →
        (InterpolateFov l focal res).2 = res) ∧
    (∀ (w : ℚ → ℚ) (l : lfLens) (focal aperture distance : ℚ)
        (res : lfLensCalibVignetting), l.CalibVignetting = [] →
        InterpolateVignetting w l focal aperture distance res = (false, res)) := by
  refine ⟨?_, ?_, ?_, ?_, ?_⟩
  · intro l focal res h
    rcases interpDist_cases l focal res with hc | hc
    · rw [hc]
    · rw [hc] at h; cases h
  · intro l focal res h
    rcases interpTCA_cases l focal res with hc | hc
    · rw [hc]
    · rw [hc] at h; cases h
  · intro l focal res h
    rcases interpCrop_cases l focal res with hc | hc
    · rw [hc]
    · rw [hc] at h; cases h
  · intro l focal res h
    rcases interpFov_cases l focal res with hc | hc
    · rw [hc]
    · rw [hc] at h; cases h
  · intro w l focal aperture distance res h
    simp [InterpolateVignetting, h]

/-- C1 witness: each interpolator evaluated on a concrete failing query,
the output coming back unmodified. -/
theorem interp_false_leaves_output_witness :
    ((InterpolateDistortion lensVignFar 50 resD0).1 = false ∧
      (InterpolateDistortion lensVignFar 50 resD0).2 = resD0) ∧
    ((InterpolateTCA lensVignFar 50 ⟨.NONE, 0, []⟩).1 = false ∧
      (InterpolateTCA lensVignFar 50 ⟨.NONE, 0, []⟩).2 = ⟨.NONE, 0, []⟩) ∧
    ((InterpolateCrop lensVignFar 50 ⟨0, .NO_CROP, []⟩).1 = false ∧
      (InterpolateCrop lensVignFar 50 ⟨0, .NO_CROP, []⟩).2 = ⟨0, .NO_CROP, []⟩) ∧
    ((InterpolateFov lensVignFar 50 ⟨0, 0⟩).1 = false ∧
      (InterpolateFov lensVignFar 50 ⟨0, 0⟩).2 = ⟨0, 0⟩) ∧
    InterpolateVignetting unitWeight lensMixed 50 4 10 resV0 = (false, resV0) :=
  ⟨⟨by with_unfolding_all decide, interp_false_leaves_output.1 lensVignFar 50 resD0 (by with_unfolding_all decide)⟩,
   ⟨by with_unfolding_all decide, interp_false_leaves_output.2.1 lensVignFar 50 _ (by with_unfolding_all decide)⟩,
   ⟨by with_unfolding_all decide, interp_false_leaves_output.2.2.1 lensVignFar 50 _ (by with_unfolding_all decide)⟩,
   ⟨by with_unfolding_all decide, interp_false_leaves_output.2.2.2.1 lensVignFar 50 _ (by with_unfolding_all decide)⟩,
   interp_false_leaves_output.2.2.2.2 unitWeight lensMixed 50 4 10 resV0 rfl⟩

set_option maxRecDepth 8000 in
/-- C1 counterexample: with a non-empty vignetting list whose only sample
is farther than unit normalized distance, `InterpolateVignetting` returns
`false` yet the output record has been overwritten. -/
theorem interp_false_leaves_output_cx :
    (InterpolateVignetting unitWeight lensVignFar 10 4 (1/30) resV0).1 = false ∧
    (InterpolateVignetting unitWeight lensVignFar 10 4 (1/30) resV0).2 ≠ resV0 := by
  with_unfolding_all decide

set_option maxRecDepth 8000 in
/-- C2 (amended): for every lens that passes `Check` and every focal `f`
equal to the `Focal` of a distortion record whose model is not NONE and
equals the model latched from the list (the first non-NONE model),
`InterpolateDistortion (f)` returns `true` and the output is such a
record of the list, verbatim. -/
theorem dist_exact_match (p : NameParse) (l : lfLens) (f : ℚ)
    (res c : lfLensCalibDistortion) (hchk : Check p l = true)
    (hc : c ∈ l.CalibDistortion) (hf : c.Focal = f) (hm : c.Model ≠ .NONE)
    (hmm : c.Model = firstDistortionModel l.CalibDistortion) :
    ∃ c', c' ∈ l.CalibDistortion ∧ c'.Focal = f ∧
      c'.Model = firstDistortionModel l.CalibDistortion ∧
      InterpolateDistortion l f res = (true, c') := by
  rcases splineLoop_exact (·.Model) .NONE (·.Focal) f l.CalibDistortion .NONE
      initSpline ⟨c, hc, hf, hm, hmm⟩ with ⟨c', hc', hf', hm', heq⟩
  refine ⟨c', hc', hf', hm', ?_⟩
  unfold InterpolateDistortion
  rw [if_neg (fun he => by rw [he] at hc; simp at hc), heq]

/-- C2 witness: the POLY5 lens passes `Check` and an exact-focal query at
24 returns the focal-24 record verbatim. -/
theorem dist_exact_match_witness :
    ∃ c', c' ∈ lensPoly5.CalibDistortion ∧ c'.Focal = 24 ∧
      c'.Model = firstDistortionModel lensPoly5.CalibDistortion ∧
      InterpolateDistortion lensPoly5 24 resD0 = (true, c') :=
  dist_exact_match parseNone lensPoly5 24 resD0 recPoly5at24
    (by with_unfolding_all decide) (by with_unfolding_all decide) rfl
    (by with_unfolding_all decide) (by with_unfolding_all decide)

/-- C2 counterexample: a lens passing `Check` whose distortion list mixes
a POLY3 record (first) with a POLY5 record at focal 50: the query at 50
matches the POLY5 record's focal, yet the call does not return that
record (the POLY3 family was latched and the focal-50 record skipped). -/
theorem dist_exact_match_cx :
    Check parseNone lensMixed = true ∧
    recPoly5at50 ∈ lensMixed.CalibDistortion ∧
    recPoly5at50.Focal = 50 ∧
    (InterpolateDistortion lensMixed 50 resD0).1 = true ∧
    (InterpolateDistortion lensMixed 50 resD0).2 ≠ recPoly5at50 := by
  refine ⟨?_, ?_, ?_, ?_, ?_⟩ <;> with_unfolding_all decide

/-- C3 (amended): for the two-sample POLY5 lens (focal 24, `k1 = 0.05`
and focal 70, `k1 = -0.02`), interpolation at focal 47 returns `true`
with `k1 = -1/470` (each coefficient is multiplied by its sample's focal
before the Hermite evaluation, which reduces to the linear average with
no outer neighbors, and divided by the query focal afterwards) and
`k2 = 0`. -/
theorem poly5_two_sample_spline :
    InterpolateDistortion lensPoly5 47 resD0 =
      (true, ⟨.POLY5, 47, 47, false, [-1/470, 0, 0, 0, 0]⟩) := by
  with_unfolding_all decide

set_option maxRecDepth 8000 in
/-- C3 counterexample: the claimed `k1 = 0.015` does not hold at focal
47; the code produces `-1/470`. -/
theorem poly5_two_sample_spline_cx :
    (InterpolateDistortion lensPoly5 47 resD0).1 = true ∧
    termAt (InterpolateDistortion lensPoly5 47 resD0).2.Terms 0 ≠ 3/200 := by
  with_unfolding_all decide

/-- C6: the parameter-axis scale factors computed by
`__parameter_scales`, per correction type, model and term index, written
exactly as the claim states them. -/
theorem parameter_scales_spec (f : ℚ) (i : ℕ) :
    __parameter_scales (.distortion .POLY3) i [f] = [f] ∧
    __parameter_scales (.distortion .POLY5) i [f] = [f] ∧
    __parameter_scales (.distortion .PTLENS) i [f] = [f] ∧
    __parameter_scales (.distortion .ACM) i [f]
      = [f / f ^ (if i < 3 then 2 * (i + 1) else 1)] ∧
    __parameter_scales (.tca .LINEAR) 0 [f] = [1] ∧
    __parameter_scales (.tca .LINEAR) 1 [f] = [1] ∧
    __parameter_scales (.tca .POLY3) 0 [f] = [1] ∧
    __parameter_scales (.tca .POLY3) 1 [f] = [1] ∧
    __parameter_scales (.tca .ACM) i [f]
      = [f / f ^ (if 1 < i ∧ i < 8 then 2 * (i / 2) else 1)] ∧
    __parameter_scales (.vignetting .PA) i [f] = [1] ∧
    __parameter_scales (.vignetting .ACM) i [f] = [1 / f ^ (2 * (i + 1))] := by
  have hmc : i / 2 * 2 = 2 * (i / 2) := Nat.mul_comm _ _
  refine ⟨rfl, rfl, rfl, ?_, rfl, rfl, rfl, rfl, ?_, rfl, ?_⟩ <;>
    simp only [__parameter_scales, hmc, List.map, powQ_eq_pow]

/-- C7 (amended): when `MaxFocal = MinFocal` the vignetting distance
normalization skips the division by the zero focal range and keeps the
raw offsets `focal - MinFocal`, so the focal axis still contributes
`(sample.Focal - focal)²` to the squared distance; it reduces to the
aperture and distance axes only when the sample's focal equals the
query's. -/
theorem vignettingDistSq_prime (l : lfLens) (x : lfLensCalibVignetting)
    (focal aperture distance : ℚ) (h : l.MaxFocal = l.MinFocal) :
    vignettingDistSq l x focal aperture distance =
      (x.Focal - focal) ^ 2 + (4 / x.Aperture - 4 / aperture) ^ 2 +
        ((1/10) / x.Distance - (1/10) / distance) ^ 2 := by
  unfold vignettingDistSq square
  rw [h]
  simp only [sub_self, ne_eq, not_true_eq_false, if_false]
  ring

/-- C7 witness: the prime-lens distance formula evaluated on a concrete
sample one millimeter away in focal. -/
theorem vignettingDistSq_prime_witness :
    lensVignPA.MaxFocal = lensVignPA.MinFocal ∧
    vignettingDistSq lensVignPA recVignAt51 50 4 10 =
      (recVignAt51.Focal - 50) ^ 2 + (4 / recVignAt51.Aperture - 4 / 4) ^ 2 +
        ((1/10) / recVignAt51.Distance - (1/10) / 10) ^ 2 :=
  ⟨rfl, vignettingDistSq_prime lensVignPA recVignAt51 50 4 10 rfl⟩

set_option maxRecDepth 8000 in
/-- C7 counterexample: on a prime lens (`MaxFocal = MinFocal`) the
computed distance is not a function of the aperture and distance axes
alone — two queries differing only in focal give different distances. -/
theorem vignettingDistSq_prime_cx :
    lensVignPA.MaxFocal = lensVignPA.MinFocal ∧
    vignettingDistSq lensVignPA recVignAt51 50 4 10 ≠
      vignettingDistSq lensVignPA recVignAt51 51 4 10 := by
  with_unfolding_all decide

/-- C10: `RemoveCalib*` succeeds exactly on indices inside the list;
on success the entry at the index is removed with the remaining order
preserved, on failure the lens is unchanged. -/
theorem remove_calib_spec (l : lfLens) (idx : ℤ) :
    (((RemoveCalibDistortion l idx).1 = true ↔
        0 ≤ idx ∧ idx < (l.CalibDistortion.length : ℤ)) ∧
      ((RemoveCalibDistortion l idx).1 = true →
        (RemoveCalibDistortion l idx).2 =
          { l with CalibDistortion := l.CalibDistortion.take idx.toNat ++
              l.CalibDistortion.drop (idx.toNat + 1) }) ∧
      ((RemoveCalibDistortion l idx).1 = false →
        (RemoveCalibDistortion l idx).2 = l)) ∧
    (((RemoveCalibTCA l idx).1 = true ↔
        0 ≤ idx ∧ idx < (l.CalibTCA.length : ℤ)) ∧
      ((RemoveCalibTCA l idx).1 = true →
        (RemoveCalibTCA l idx).2 =
          { l with CalibTCA := l.CalibTCA.take idx.toNat ++
              l.CalibTCA.drop (idx.toNat + 1) }) ∧
      ((RemoveCalibTCA l idx).1 = false → (RemoveCalibTCA l idx).2 = l)) ∧
    (((RemoveCalibVignetting l idx).1 = true ↔
        0 ≤ idx ∧ idx < (l.CalibVignetting.length : ℤ)) ∧
      ((RemoveCalibVignetting l idx).1 = true →
        (RemoveCalibVignetting l idx).2 =
          { l with CalibVignetting := l.CalibVignetting.take idx.toNat ++
              l.CalibVignetting.drop (idx.toNat + 1) }) ∧
      ((RemoveCalibVignetting l idx).1 = false →
        (RemoveCalibVignetting l idx).2 = l)) ∧
    (((RemoveCalibCrop l idx).1 = true ↔
        0 ≤ idx ∧ idx < (l.CalibCrop.length : ℤ)) ∧
      ((RemoveCalibCrop l idx).1 = true →
        (RemoveCalibCrop l idx).2 =
          { l with CalibCrop := l.CalibCrop.take idx.toNat ++
              l.CalibCrop.drop (idx.toNat + 1) }) ∧
      ((RemoveCalibCrop l idx).1 = false → (RemoveCalibCrop l idx).2 = l)) ∧
    (((RemoveCalibFov l idx).1 = true ↔
        0 ≤ idx ∧ idx < (l.CalibFov.length : ℤ)) ∧
      ((RemoveCalibFov l idx).1 = true →
        (RemoveCalibFov l idx).2 =
          { l with CalibFov := l.CalibFov.take idx.toNat ++
              l.CalibFov.drop (idx.toNat + 1) }) ∧
      ((RemoveCalibFov l idx).1 = false → (RemoveCalibFov l idx).2 = l)) := by
  refine ⟨⟨?_, ?_, ?_⟩, ⟨?_, ?_, ?_⟩, ⟨?_, ?_, ?_⟩, ⟨?_, ?_, ?_⟩, ⟨?_, ?_, ?_⟩⟩ <;>
    simp only [RemoveCalibDistortion, RemoveCalibTCA, RemoveCalibVignetting,
      RemoveCalibCrop, RemoveCalibFov]
  · exact (delobj_spec l.CalibDistortion idx).1
  · intro h
    rw [(delobj_spec l.CalibDistortion idx).2.1 h]
  · intro h
    rw [(delobj_spec l.CalibDistortion idx).2.2 h]
  · exact (delobj_spec l.CalibTCA idx).1
  · intro h
    rw [(delobj_spec l.CalibTCA idx).2.1 h]
  · intro h
    rw [(delobj_spec l.CalibTCA idx).2.2 h]
  · exact (delobj_spec l.CalibVignetting idx).1
  · intro h
    rw [(delobj_spec l.CalibVignetting idx).2.1 h]
  · intro h
    rw [(delobj_spec l.CalibVignetting idx).2.2 h]
  · exact (delobj_spec l.CalibCrop idx).1
  · intro h
    rw [(delobj_spec l.CalibCrop idx).2.1 h]
  · intro h
    rw [(delobj_spec l.CalibCrop idx).2.2 h]
  · exact (delobj_spec l.CalibFov idx).1
  · intro h
    rw [(delobj_spec l.CalibFov idx).2.1 h]
  · intro h
    rw [(delobj_spec l.CalibFov idx).2.2 h]

/-- C10 witness: removing index 0 from a two-entry distortion list
succeeds and drops exactly the first entry; removing index 2 fails and
leaves the lens unchanged. -/
theorem remove_calib_spec_witness :
    (RemoveCalibDistortion lensMixed 0).1 = true ∧
    (RemoveCalibDistortion lensMixed 0).2 =
      { lensMixed with CalibDistortion := lensMixed.CalibDistortion.take (0 : ℤ).toNat ++
          lensMixed.CalibDistortion.drop ((0 : ℤ).toNat + 1) } ∧
    (RemoveCalibDistortion lensMixed 2).1 = false ∧
    (RemoveCalibDistortion lensMixed 2).2 = lensMixed :=
  have h1 : (RemoveCalibDistortion lensMixed 0).1 = true :=
    (remove_calib_spec lensMixed 0).1.1.mpr (by with_unfolding_all decide)
  have h3 : (RemoveCalibDistortion lensMixed 2).1 = false := by with_unfolding_all decide
  ⟨h1, (remove_calib_spec lensMixed 0).1.2.1 h1, h3,
    (remove_calib_spec lensMixed 2).1.2.2 h3⟩

/-- C5 (amended): for the spline interpolators (distortion, TCA, crop)
the model family is latched from the first record with a non-NONE model,
and records of any other model have no influence: the result equals the
result on the list restricted to the latched family (so an empty or
all-NONE list fails, leaving the output unmodified).  The vignetting
interpolator equals its run on the considered sublist (records after the
latch with a different model are skipped) and fails on an empty list; but
model-NONE records reached before the latch settles are themselves used,
so an all-NONE vignetting list can return true (see the
counterexample). -/
theorem model_latching :
    (∀ (l : lfLens) (focal : ℚ) (res : lfLensCalibDistortion),
      InterpolateDistortion l focal res =
        InterpolateDistortion
          { l with CalibDistortion :=
              restrictModel (·.Model) .NONE l.CalibDistortion .NONE } focal res) ∧
    (∀ (l : lfLens) (focal : ℚ) (res : lfLensCalibTCA),
      InterpolateTCA l focal res =
        InterpolateTCA
          { l with CalibTCA :=
              restrictModel (·.Model) .NONE l.CalibTCA .NONE } focal res) ∧
    (∀ (l : lfLens) (focal : ℚ) (res : lfLensCalibCrop),
      InterpolateCrop l focal res =
        InterpolateCrop
          { l with CalibCrop :=
              restrictModel (·.CropMode) .NO_CROP l.CalibCrop .NO_CROP } focal res) ∧
    (∀ (l : lfLens) (focal : ℚ) (res : lfLensCalibDistortion),
      (∀ c ∈ l.CalibDistortion, c.Model = .NONE) →
      InterpolateDistortion l focal res = (false, res)) ∧
    (∀ (l : lfLens) (focal : ℚ) (res : lfLensCalibTCA),
      (∀ c ∈ l.CalibTCA, c.Model = .NONE) →
      InterpolateTCA l focal res = (false, res)) ∧
    (∀ (l : lfLens) (focal : ℚ) (res : lfLensCalibCrop),
      (∀ c ∈ l.CalibCrop, c.CropMode = .NO_CROP) →
      InterpolateCrop l focal res = (false, res)) ∧
    (∀ (w : ℚ → ℚ) (l : lfLens) (focal aperture distance : ℚ)
      (res : lfLensCalibVignetting),
      InterpolateVignetting w l focal aperture distance res =
        InterpolateVignetting w
          { l with CalibVignetting := consideredVign l.CalibVignetting .NONE }
          focal aperture distance res) ∧
    (∀ (w : ℚ → ℚ) (l : lfLens) (focal aperture distance : ℚ)
      (res : lfLensCalibVignetting), l.CalibVignetting = [] →
      InterpolateVignetting w l focal aperture distance res = (false, res)) := by
  refine ⟨interpDist_restrict, interpTCA_restrict, interpCrop_restrict,
    ?_, ?_, ?_, interpVign_considered, ?_⟩
  · intro l focal res hall
    rw [interpDist_restrict l focal res,
      restrictModel_allNone (·.Model) .NONE l.CalibDistortion .NONE hall]
    rfl
  · intro l focal res hall
    rw [interpTCA_restrict l focal res,
      restrictModel_allNone (·.Model) .NONE l.CalibTCA .NONE hall]
    rfl
  · intro l focal res hall
    rw [interpCrop_restrict l focal res,
      restrictModel_allNone (·.CropMode) .NO_CROP l.CalibCrop .NO_CROP hall]
    rfl
  · intro w l focal aperture distance res h
    simp [InterpolateVignetting, h]

/-- C5 witness: the all-NONE lens makes the three spline interpolators
fail with the output untouched; the empty vignetting list fails too; and
the restriction equality evaluated on the mixed-model lens. -/
theorem model_latching_witness :
    InterpolateDistortion lensAllNone 31 resD0 = (false, resD0) ∧
    InterpolateTCA lensAllNone 31 ⟨.NONE, 0, []⟩ = (false, ⟨.NONE, 0, []⟩) ∧
    InterpolateCrop lensAllNone 31 ⟨0, .NO_CROP, []⟩ = (false, ⟨0, .NO_CROP, []⟩) ∧
    InterpolateVignetting unitWeight lensAllNone 31 4 10 resV0 = (false, resV0) ∧
    InterpolateDistortion lensMixed 47 resD0 =
      InterpolateDistortion
        { lensMixed with CalibDistortion :=
            restrictModel (·.Model) .NONE lensMixed.CalibDistortion .NONE } 47 resD0 :=
  ⟨model_latching.2.2.2.1 lensAllNone 31 resD0 (by with_unfolding_all decide),
   model_latching.2.2.2.2.1 lensAllNone 31 _ (by with_unfolding_all decide),
   model_latching.2.2.2.2.2.1 lensAllNone 31 _ (by with_unfolding_all decide),
   model_latching.2.2.2.2.2.2.2 unitWeight lensAllNone 31 4 10 resV0 rfl,
   model_latching.1 lensMixed 47 resD0⟩

/-- C5 counterexample: a vignetting list whose only record has model NONE
is not rejected — the interpolator returns `true` on it. -/
theorem model_latching_cx :
    lensVignNone.CalibVignetting.all (fun c => c.Model == .NONE) = true ∧
    (InterpolateVignetting unitWeight lensVignNone 50 4 10 resV0).1 = true := by
  refine ⟨?_, ?_⟩ <;> with_unfolding_all decide

/-- C9: each `AddCalib*` call either replaces, in place, the first
existing entry with the same key tuple (leaving the length unchanged) or
appends the record at the end; consequently key-tuple uniqueness of every
calibration list is preserved. -/
theorem add_calib_spec :
    (∀ (l : lfLens) (dc : lfLensCalibDistortion),
      (l.CalibDistortion.Pairwise (fun a b => a.Focal ≠ b.Focal) →
        (AddCalibDistortion l dc).CalibDistortion.Pairwise (fun a b => a.Focal ≠ b.Focal)) ∧
      ((∃ x ∈ l.CalibDistortion, x.Focal = dc.Focal) →
        (AddCalibDistortion l dc).CalibDistortion.length = l.CalibDistortion.length ∧
        ∃ i, ∃ hi : i < l.CalibDistortion.length,
          (l.CalibDistortion.get ⟨i, hi⟩).Focal = dc.Focal ∧
          (AddCalibDistortion l dc).CalibDistortion = l.CalibDistortion.set i dc) ∧
      ((∀ x ∈ l.CalibDistortion, x.Focal ≠ dc.Focal) →
        (AddCalibDistortion l dc).CalibDistortion = l.CalibDistortion ++ [dc])) ∧
    (∀ (l : lfLens) (tc : lfLensCalibTCA),
      (l.CalibTCA.Pairwise (fun a b => a.Focal ≠ b.Focal) →
        (AddCalibTCA l tc).CalibTCA.Pairwise (fun a b => a.Focal ≠ b.Focal)) ∧
      ((∃ x ∈ l.CalibTCA, x.Focal = tc.Focal) →
        (AddCalibTCA l tc).CalibTCA.length = l.CalibTCA.length ∧
        ∃ i, ∃ hi : i < l.CalibTCA.length,
          (l.CalibTCA.get ⟨i, hi⟩).Focal = tc.Focal ∧
          (AddCalibTCA l tc).CalibTCA = l.CalibTCA.set i tc) ∧
      ((∀ x ∈ l.CalibTCA, x.Focal ≠ tc.Focal) →
        (AddCalibTCA l tc).CalibTCA = l.CalibTCA ++ [tc])) ∧
    (∀ (l : lfLens) (vc : lfLensCalibVignetting),
      (l.CalibVignetting.Pairwise (fun a b => vignKey a ≠ vignKey b) →
        (AddCalibVignetting l vc).CalibVignetting.Pairwise
          (fun a b => vignKey a ≠ vignKey b)) ∧
      ((∃ x ∈ l.CalibVignetting, vignKey x = vignKey vc) →
        (AddCalibVignetting l vc).CalibVignetting.length = l.CalibVignetting.length ∧
        ∃ i, ∃ hi : i < l.CalibVignetting.length,
          vignKey (l.CalibVignetting.get ⟨i, hi⟩) = vignKey vc ∧
          (AddCalibVignetting l vc).CalibVignetting = l.CalibVignetting.set i vc) ∧
      ((∀ x ∈ l.CalibVignetting, vignKey x ≠ vignKey vc) →
        (AddCalibVignetting l vc).CalibVignetting = l.CalibVignetting ++ [vc])) ∧
    (∀ (l : lfLens) (cc : lfLensCalibCrop),
      (l.CalibCrop.Pairwise (fun a b => a.Focal ≠ b.Focal) →
        (AddCalibCrop l cc).CalibCrop.Pairwise (fun a b => a.Focal ≠ b.Focal)) ∧
      ((∃ x ∈ l.CalibCrop, x.Focal = cc.Focal) →
        (AddCalibCrop l cc).CalibCrop.length = l.CalibCrop.length ∧
        ∃ i, ∃ hi : i < l.CalibCrop.length,
          (l.CalibCrop.get ⟨i, hi⟩).Focal = cc.Focal ∧
          (AddCalibCrop l cc).CalibCrop = l.CalibCrop.set i cc) ∧
      ((∀ x ∈ l.CalibCrop, x.Focal ≠ cc.Focal) →
        (AddCalibCrop l cc).CalibCrop = l.CalibCrop ++ [cc])) ∧
    (∀ (l : lfLens) (fc : lfLensCalibFov),
      (l.CalibFov.Pairwise (fun a b => a.Focal ≠ b.Focal) →
        (AddCalibFov l fc).CalibFov.Pairwise (fun a b => a.Focal ≠ b.Focal)) ∧
      ((∃ x ∈ l.CalibFov, x.Focal = fc.Focal) →
        (AddCalibFov l fc).CalibFov.length = l.CalibFov.length ∧
        ∃ i, ∃ hi : i < l.CalibFov.length,
          (l.CalibFov.get ⟨i, hi⟩).Focal = fc.Focal ∧
          (AddCalibFov l fc).CalibFov = l.CalibFov.set i fc) ∧
      ((∀ x ∈ l.CalibFov, x.Focal ≠ fc.Focal) →
        (AddCalibFov l fc).CalibFov = l.CalibFov ++ [fc])) := by
  refine ⟨?_, ?_, ?_, ?_, ?_⟩
  · intro l dc
    refine ⟨?_, ?_, ?_⟩
    · intro hp
      simpa [AddCalibDistortion] using
        addobj_pairwise (·.Focal) cmp_distortion
          (fun a b => by simp [cmp_distortion, beq_iff_eq]) l.CalibDistortion dc hp
    · intro hex
      have hex' : ∃ x ∈ l.CalibDistortion, cmp_distortion dc x = true := by
        rcases hex with ⟨x, hx, he⟩
        exact ⟨x, hx, by simpa [cmp_distortion, beq_iff_eq] using he.symm⟩
      rcases addobj_first_match cmp_distortion l.CalibDistortion dc hex' with
        ⟨i, hi, hcm, heq⟩
      refine ⟨by simp [AddCalibDistortion, heq], i, hi, ?_, by
        simpa [AddCalibDistortion] using heq⟩
      simp only [cmp_distortion, beq_iff_eq] at hcm
      exact hcm.symm
    · intro hall
      have hf : ∀ x ∈ l.CalibDistortion, cmp_distortion dc x = false := by
        intro x hx
        simp only [cmp_distortion, beq_eq_false_iff_ne, ne_eq]
        exact fun he => hall x hx he.symm
      simpa [AddCalibDistortion] using addobj_no_match cmp_distortion l.CalibDistortion dc hf
  · intro l tc
    refine ⟨?_, ?_, ?_⟩
    · intro hp
      simpa [AddCalibTCA] using
        addobj_pairwise (·.Focal) cmp_tca
          (fun a b => by simp [cmp_tca, beq_iff_eq]) l.CalibTCA tc hp
    · intro hex
      have hex' : ∃ x ∈ l.CalibTCA, cmp_tca tc x = true := by
        rcases hex with ⟨x, hx, he⟩
        exact ⟨x, hx, by simpa [cmp_tca, beq_iff_eq] using he.symm⟩
      rcases addobj_first_match cmp_tca l.CalibTCA tc hex' with ⟨i, hi, hcm, heq⟩
      refine ⟨by simp [AddCalibTCA, heq], i, hi, ?_, by simpa [AddCalibTCA] using heq⟩
      simp only [cmp_tca, beq_iff_eq] at hcm
      exact hcm.symm
    · intro hall
      have hf : ∀ x ∈ l.CalibTCA, cmp_tca tc x = false := by
        intro x hx
        simp only [cmp_tca, beq_eq_false_iff_ne, ne_eq]
        exact fun he => hall x hx he.symm
      simpa [AddCalibTCA] using addobj_no_match cmp_tca l.CalibTCA tc hf
  · intro l vc
    have hkey : ∀ a b, cmp_vignetting a b = true ↔ vignKey a = vignKey b := by
      intro a b
      simp [cmp_vignetting, vignKey, Bool.and_eq_true, beq_iff_eq, Prod.ext_iff,
        and_assoc]
    refine ⟨?_, ?_, ?_⟩
    · intro hp
      simpa [AddCalibVignetting] using
        addobj_pairwise vignKey cmp_vignetting hkey l.CalibVignetting vc hp
    · intro hex
      have hex' : ∃ x ∈ l.CalibVignetting, cmp_vignetting vc x = true := by
        rcases hex with ⟨x, hx, he⟩
        exact ⟨x, hx, (hkey vc x).mpr he.symm⟩
      rcases addobj_first_match cmp_vignetting l.CalibVignetting vc hex' with
        ⟨i, hi, hcm, heq⟩
      refine ⟨by simp [AddCalibVignetting, heq], i, hi, ?_, by
        simpa [AddCalibVignetting] using heq⟩
      exact ((hkey vc _).mp hcm).symm
    · intro hall
      have hf : ∀ x ∈ l.CalibVignetting, cmp_vignetting vc x = false := by
        intro x hx
        rw [Bool.eq_false_iff, ne_eq, hkey vc x]
        exact fun he => hall x hx he.symm
      simpa [AddCalibVignetting] using
        addobj_no_match cmp_vignetting l.CalibVignetting vc hf
  · intro l cc
    refine ⟨?_, ?_, ?_⟩
    · intro hp
      simpa [AddCalibCrop] using
        addobj_pairwise (·.Focal) cmp_lenscrop
          (fun a b => by simp [cmp_lenscrop, beq_iff_eq]) l.CalibCrop cc hp
    · intro hex
      have hex' : ∃ x ∈ l.CalibCrop, cmp_lenscrop cc x = true := by
        rcases hex with ⟨x, hx, he⟩
        exact ⟨x, hx, by simpa [cmp_lenscrop, beq_iff_eq] using he.symm⟩
      rcases addobj_first_match cmp_lenscrop l.CalibCrop cc hex' with ⟨i, hi, hcm, heq⟩
      refine ⟨by simp [AddCalibCrop, heq], i, hi, ?_, by simpa [AddCalibCrop] using heq⟩
      simp only [cmp_lenscrop, beq_iff_eq] at hcm
      exact hcm.symm
    · intro hall
      have hf : ∀ x ∈ l.CalibCrop, cmp_lenscrop cc x = false := by
        intro x hx
        simp only [cmp_lenscrop, beq_eq_false_iff_ne, ne_eq]
        exact fun he => hall x hx he.symm
      simpa [AddCalibCrop] using addobj_no_match cmp_lenscrop l.CalibCrop cc hf
  · intro l fc
    refine ⟨?_, ?_, ?_⟩
    · intro hp
      simpa [AddCalibFov] using
        addobj_pairwise (·.Focal) cmp_lensfov
          (fun a b => by simp [cmp_lensfov, beq_iff_eq]) l.CalibFov fc hp
    · intro hex
      have hex' : ∃ x ∈ l.CalibFov, cmp_lensfov fc x = true := by
        rcases hex with ⟨x, hx, he⟩
        exact ⟨x, hx, by simpa [cmp_lensfov, beq_iff_eq] using he.symm⟩
      rcases addobj_first_match cmp_lensfov l.CalibFov fc hex' with ⟨i, hi, hcm, heq⟩
      refine ⟨by simp [AddCalibFov, heq], i, hi, ?_, by simpa [AddCalibFov] using heq⟩
      simp only [cmp_lensfov, beq_iff_eq] at hcm
      exact hcm.symm
    · intro hall
      have hf : ∀ x ∈ l.CalibFov, cmp_lensfov fc x = false := by
        intro x hx
        simp only [cmp_lensfov, beq_eq_false_iff_ne, ne_eq]
        exact fun he => hall x hx he.symm
      simpa [AddCalibFov] using addobj_no_match cmp_lensfov l.CalibFov fc hf

/-- C9 witness: adding a distortion record at a fresh focal appends it;
adding a record at an existing focal keeps the list length. -/
theorem add_calib_spec_witness :
    (AddCalibDistortion lensPoly5 recPoly5at50).CalibDistortion =
      lensPoly5.CalibDistortion ++ [recPoly5at50] ∧
    (AddCalibDistortion lensPoly5 recPoly3at24).CalibDistortion.length =
      lensPoly5.CalibDistortion.length :=
  ⟨(add_calib_spec.1 lensPoly5 recPoly5at50).2.2 (by with_unfolding_all decide),
   ((add_calib_spec.1 lensPoly5 recPoly3at24).2.1 (by with_unfolding_all decide)).1⟩

/-- C4 (amended): with a non-empty vignetting calibration list and an
inverse-distance weight that is nonzero at every squared distance at or
beyond the exact-match threshold, `InterpolateVignetting` returns `true`
iff the smallest squared interpolation distance over the considered
samples is at most 1; when that smallest distance exceeds 1 it returns
`false`; and when some considered sample lies within the exact-match
threshold the first such sample is returned verbatim.  (The original
"at least one sample contributed to the weighted sum" conjunct fails on
the exact-match path: see the counterexample.) -/
theorem vignetting_success_iff (w : ℚ → ℚ) (l : lfLens)
    (focal aperture distance : ℚ) (res : lfLensCalibVignetting)
    (hne : l.CalibVignetting ≠ [])
    (hw : ∀ s, vignExactSq ≤ s → w s ≠ 0) :
    ((InterpolateVignetting w l focal aperture distance res).1 = true ↔
        smallestVignDistSq l focal aperture distance ≤ 1) ∧
    (1 < smallestVignDistSq l focal aperture distance →
        (InterpolateVignetting w l focal aperture distance res).1 = false) ∧
    (∀ c, vignFind l focal aperture distance
        (consideredVign l.CalibVignetting .NONE) = some c →
        InterpolateVignetting w l focal aperture distance res = (true, c)) := by
  obtain ⟨c₀, cs₀, hcc⟩ : ∃ c cs, l.CalibVignetting = c :: cs := by
    cases hcv : l.CalibVignetting with
    | nil => exact absurd hcv hne
    | cons c cs => exact ⟨c, cs, rfl⟩
  have hconsne : consideredVign l.CalibVignetting .NONE ≠ [] := by
    rw [hcc, consideredVign_cons]
    simp
  cases hfind : vignFind l focal aperture distance
      (consideredVign l.CalibVignetting .NONE) with
  | some c =>
    have hloop := vignLoop_find_some w l focal aperture distance
      l.CalibVignetting .NONE
      { res with Focal := focal, Aperture := aperture, Distance := distance,
                 Terms := [0, 0, 0] } 0 FLT_MAX c hfind
    have hres : InterpolateVignetting w l focal aperture distance res = (true, c) := by
      unfold InterpolateVignetting
      rw [if_neg hne, hloop]
    have hfind' := hfind
    rw [vignFind] at hfind'
    have hmem := List.mem_of_find?_eq_some hfind'
    have hpc : vignettingDistSq l c focal aperture distance < vignExactSq := by
      have := List.find?_some hfind'
      simpa using this
    have hsm : smallestVignDistSq l focal aperture distance ≤ 1 := by
      rw [smallestVignDistSq, foldl_minQ_le_iff]
      refine .inr ⟨vignettingDistSq l c focal aperture distance,
        List.mem_map_of_mem _ hmem, ?_⟩
      rw [vignExactSq] at hpc
      linarith
    refine ⟨?_, ?_, ?_⟩
    · rw [hres]
      simpa using hsm
    · intro h
      linarith
    · intro c' hc'
      cases hc'
      exact hres
  | none =>
    obtain ⟨vm', res', heq⟩ := vignLoop_find_none w l focal aperture distance
      l.CalibVignetting .NONE
      { res with Focal := focal, Aperture := aperture, Distance := distance,
                 Terms := [0, 0, 0] } 0 FLT_MAX hfind
    have hge : ∀ c ∈ consideredVign l.CalibVignetting .NONE,
        vignExactSq ≤ vignettingDistSq l c focal aperture distance := by
      intro c hc
      have hfind' := hfind
      rw [vignFind] at hfind'
      have := List.find?_eq_none.mp hfind' c hc
      simpa using this
    have htw : 0 < weightSumVign w l focal aperture distance
        (consideredVign l.CalibVignetting .NONE) := by
      rw [weightSumVign]
      apply List.sum_pos
      · intro x hx
        simp only [List.mem_map] at hx
        obtain ⟨c, hc, rfl⟩ := hx
        exact fabsQ_pos _ (hw _ (hge c hc))
      · simp [hconsne]
    have hsmeq : smallestVignDistSq l focal aperture distance =
        ((consideredVign l.CalibVignetting .NONE).map
          (fun c => vignettingDistSq l c focal aperture distance)).foldl minQ FLT_MAX := rfl
    have hfst : (InterpolateVignetting w l focal aperture distance res).1 =
        if 1 < smallestVignDistSq l focal aperture distance then false else true := by
      unfold InterpolateVignetting
      rw [if_neg hne, heq]
      dsimp only
      rw [← hsmeq, zero_add]
      by_cases h1 : 1 < smallestVignDistSq l focal aperture distance
      · rw [if_pos h1, if_pos h1]
      · rw [if_neg h1, if_neg h1, if_pos]
        refine ⟨htw, ?_⟩
        have hFM : (1 : ℚ) < FLT_MAX := by
          rw [FLT_MAX]
          norm_num
        push_neg at h1
        linarith
    refine ⟨?_, ?_, ?_⟩
    · rw [hfst]
      by_cases h1 : 1 < smallestVignDistSq l focal aperture distance
      · rw [if_pos h1]
        constructor
        · intro h
          cases h
        · intro h
          linarith
      · rw [if_neg h1]
        push_neg at h1
        simp [h1]
    · intro h
      rw [hfst, if_pos h]
    · intro c' hc'
      cases hc'

/-- C4 witness: on the 10-20 mm lens whose single PA sample sits exactly
at the query `(20, f/4, 2m)`, the success verdict coincides with the
smallest squared distance being at most 1. -/
theorem vignetting_success_iff_witness :
    (InterpolateVignetting unitWeight lensVignFar 20 4 2 resV0).1 = true ↔
      smallestVignDistSq lensVignFar 20 4 2 ≤ 1 :=
  (vignetting_success_iff unitWeight lensVignFar 20 4 2 resV0
    (by with_unfolding_all decide) (fun s _ => one_ne_zero)).1

/-- C4 counterexample: a prime lens whose single PA sample coincides with
the query returns success with the sample verbatim, yet no sample at all
contributed to the weighted sum (the accumulated weight is zero), so
success is not equivalent to "at least one sample contributed and the
nearest is within unit distance". -/
theorem vignetting_success_iff_cx :
    lensVignPA.CalibVignetting ≠ [] ∧
    InterpolateVignetting unitWeight lensVignPA 50 4 10 resV0 = (true, recVignPA) ∧
    contributedVign lensVignPA 50 4 10 lensVignPA.CalibVignetting .NONE = [] := by
  refine ⟨?_, ?_, ?_⟩ <;> with_unfolding_all decide

/-- C8: `GuessParameters` is idempotent: with the model name (hence the
name-parse outcome) and the calibration lists unchanged by the call, a
second call fills nothing further and leaves the lens exactly as the
first call left it. -/
theorem guess_parameters_idempotent (p : NameParse) (l : lfLens) :
    GuessParameters p (GuessParameters p l) = GuessParameters p l := by
  rw [GuessParameters_via p (GuessParameters p l), gpCands_GP,
    GP_MinFocal, GP_MaxFocal, GP_MinAperture, GP_MaxAperture, gpFields_idem,
    ← GP_MinFocal, ← GP_MaxFocal, ← GP_MinAperture, ← GP_MaxAperture]


end Lensfun
